import Mathlib

/-!
Verification of the ai-NES emulator core against its specification.

Each definition below is a shallow embedding of a function from the
JavaScript source (src/ai-nes/src/...), translated statement by statement.
Machine integers are modelled as `Nat` with explicit bit masking; byte
stores (`Uint8Array`) are modelled as total functions `Nat → Nat` whose
out-of-bounds writes are dropped, matching typed-array semantics; fallible
operations return `Except`.  Theorems about the claims follow after all
definitions.
-/

set_option maxRecDepth 8000

/-- Models a store into a JS `Uint8Array` of length `size`: the value is
truncated to a byte and out-of-bounds stores are silently dropped. -/
def u8store (size : Nat) (store : Nat → Nat) (i v : Nat) : Nat → Nat :=
  fun j => if i < size ∧ j = i then v % 256 else store j

/-- Models a store into a JS `Uint32Array` of length `size`: out-of-bounds
stores are silently dropped (values here are always below 2 to the 32). -/
def u32store (size : Nat) (store : Nat → Nat) (i v : Nat) : Nat → Nat :=
  fun j => if i < size ∧ j = i then v else store j

/-! ## PPU palette RAM (src/ai-nes/src/ppu.js, readPalette / writePalette) -/

/-- Embeds the shared index computation of `PPU.readPalette` and
`PPU.writePalette`: `addr &= 0x1F; if (addr >= 0x10 && (addr & 3) === 0) addr -= 0x10`. -/
def PPU.paletteIndex (addr : Nat) : Nat :=
  let a := addr &&& 0x1F
  if 0x10 ≤ a ∧ a &&& 3 = 0 then a - 0x10 else a

/-- Embeds `PPU.readPalette`.  The palette store is the 32-byte
`this.palette` array, modelled as a function. -/
def PPU.readPalette (palette : Nat → Nat) (addr : Nat) : Nat :=
  palette (PPU.paletteIndex addr)

/-- Embeds `PPU.writePalette`. -/
def PPU.writePalette (palette : Nat → Nat) (addr value : Nat) : Nat → Nat :=
  u8store 32 palette (PPU.paletteIndex addr) value

/-! ## RAM initialisation (src/ai-nes/src/mappers/mapper-base.js, Mapper.fillRam)

`fillRam` consults `this.nes.opts.ramInitPattern`.  In the `random` branch
the source draws `(Math.random() * 256) | 0` for every byte; the host PRNG
is modelled as an explicit stream `rng : Nat → Nat` giving the i-th draw
(already truncated to 0..255 by the `| 0`; the `% 256` below reflects the
byte store into the `Uint8Array`). -/

/-- Default value of `opts.ramInitPattern` in the `NES` constructor
(src/ai-nes/src/nes.js). -/
def NES.defaultRamInitPattern : String := "random"

/-- Embeds `Mapper.fillRam`: fills a RAM array according to the configured
pattern.  Patterns other than "all_ff" and "random" leave the array as it
is (it was allocated zero-filled). -/
def Mapper.fillRam (pattern : String) (rng : Nat → Nat) (ram : List Nat) : List Nat :=
  if pattern = "all_ff" then
    List.replicate ram.length 0xFF
  else if pattern = "random" then
    (List.range ram.length).map (fun i => rng i % 256)
  else
    ram

/-! ## ROM loading (src/ai-nes/src/rom.js, ROM.load, Uint8Array path) -/

/-- The fields of the `ROM` object assigned by `ROM.load`. -/
structure RomState where
  header : List Nat
  romCount : Nat
  vromCount : Nat
  mirroring : Nat
  batteryRam : Bool
  trainer : Bool
  fourScreen : Bool
  mapperType : Nat
  prg : List Nat
  chr : List Nat
  valid : Bool

/-- The `ROM` constructor leaves all load-produced fields unset; modelled
with empty arrays, zero counts and `valid = false`. -/
def RomState.init : RomState :=
  { header := [], romCount := 0, vromCount := 0, mirroring := 0,
    batteryRam := false, trainer := false, fourScreen := false,
    mapperType := 0, prg := [], chr := [], valid := false }

/-- The exact message of the error thrown by `ROM.load` on a bad header
(Uint8Array path). -/
def ROM.badHeaderMsg : String := "Not a valid NES ROM (invalid header signature)."

/-- The header test of `ROM.load` for `Uint8Array` input:
`data.length < 16 || data[0] !== 0x4E || data[1] !== 0x45 || data[2] !== 0x53 || data[3] !== 0x1A`. -/
def ROM.badHeader (data : List Nat) : Prop :=
  data.length < 16 ∨ data.getD 0 0 ≠ 0x4E ∨ data.getD 1 0 ≠ 0x45 ∨
    data.getD 2 0 ≠ 0x53 ∨ data.getD 3 0 ≠ 0x1A

instance (data : List Nat) : Decidable (ROM.badHeader data) := by
  unfold ROM.badHeader; infer_instance

/-- The `ROM` fields produced by a successful `ROM.load` on `Uint8Array`
input.  The PRG and CHR loops read `data[offset + j]` when
`offset + j < data.length` and 0 otherwise (`List.getD _ 0`); flattening
the per-bank loops gives contiguous indices. -/
def ROM.loadOk (data : List Nat) : RomState :=
    let header := (List.range 16).map (fun i => data.getD i 0)
    let romCount := header.getD 4 0
    let vromCount := header.getD 5 0 * 2
    let mirroring := if header.getD 6 0 &&& 1 ≠ 0 then 1 else 0
    let batteryRam := header.getD 6 0 &&& 2 ≠ 0
    let trainer := header.getD 6 0 &&& 4 ≠ 0
    let fourScreen := header.getD 6 0 &&& 8 ≠ 0
    let isNES2 := header.getD 7 0 &&& 0x0c = 0x08
    let mapperType :=
      if isNES2 then
        let mapperBase := (header.getD 6 0 >>> 4) ||| (header.getD 7 0 &&& 0xf0)
        let mapperMSB := header.getD 8 0 &&& 0x0f
        (mapperMSB <<< 8) ||| mapperBase
      else
        let base := (header.getD 6 0 >>> 4) ||| (header.getD 7 0 &&& 0xf0)
        let isDirty := (List.range 8).any (fun i => header.getD (8 + i) 0 ≠ 0)
        if isDirty then base &&& 0x0f else base
    let offset := 16 + (if trainer then 512 else 0)
    let prg := (List.range (romCount * 16384)).map (fun k => data.getD (offset + k) 0)
    let chr := (List.range (vromCount * 4096)).map
      (fun k => data.getD (offset + romCount * 16384 + k) 0)
    { header := header, romCount := romCount, vromCount := vromCount,
      mirroring := mirroring, batteryRam := batteryRam, trainer := trainer,
      fourScreen := fourScreen, mapperType := mapperType,
      prg := prg, chr := chr, valid := true }

/-- Embeds `ROM.load` on `Uint8Array` input.  The only `throw` is the
header check, which precedes every field assignment. -/
def ROM.load (data : List Nat) : Except String RomState :=
  if ROM.badHeader data then
    Except.error ROM.badHeaderMsg
  else
    Except.ok (ROM.loadOk data)

/-- `ROM.load` as a transformer of the `ROM` object: in the source the
header check throws before the first assignment to `this`, so a failing
load leaves the object exactly as it was. -/
def ROM.loadMut (prev : RomState) (data : List Nat) : RomState × Option String :=
  match ROM.load data with
  | Except.ok r => (r, none)
  | Except.error e => (prev, some e)

/-! ## Base mapper bank switching (src/ai-nes/src/mappers/mapper-base.js)

The bank maps are JS `Uint32Array`s of length 4 (PRG) and 8 (CHR),
modelled as functions with out-of-bounds stores dropped.  `prgBankCount`
and `chrBankCount` are computed in the constructor from the lengths of the
flat PRG/CHR byte arrays; the byte contents play no role in bank
switching, so the state carries only the lengths.

In JS, `bankId % 0` is `NaN` and `NaN << 13` stores 0 into the
`Uint32Array`; the zero-bank-count cases below reproduce that. -/

structure MapperBanks where
  prgLen : Nat
  chrLen : Nat
  prgPagesMap : Nat → Nat
  chrPagesMap : Nat → Nat

/-- `this.prgBankCount = this.prgData.length >> 13` (8 KiB banks). -/
def Mapper.prgBankCount (m : MapperBanks) : Nat := m.prgLen >>> 13

/-- `this.chrBankCount = this.chrData.length >> 10` (1 KiB banks). -/
def Mapper.chrBankCount (m : MapperBanks) : Nat := m.chrLen >>> 10

/-- Bank map initialisation in the `Mapper` constructor: PRG map filled
with zero, CHR map set to the identity mapping modulo the bank count. -/
def Mapper.initBanks (prgLen chrLen : Nat) : MapperBanks :=
  let chrBankCount := chrLen >>> 10
  { prgLen := prgLen, chrLen := chrLen,
    prgPagesMap := fun _ => 0,
    chrPagesMap := fun i =>
      if chrBankCount > 0 then (i % chrBankCount) <<< 10 else 0 }

/-- Embeds `Mapper.switch8kPrgBank`. -/
def Mapper.switch8kPrgBank (bankId slot : Nat) (m : MapperBanks) : MapperBanks :=
  let c := Mapper.prgBankCount m
  let v := if c = 0 then 0 else (bankId % c) <<< 13
  { m with prgPagesMap := u32store 4 m.prgPagesMap slot v }

/-- Embeds `Mapper.switch16kPrgBank`. -/
def Mapper.switch16kPrgBank (bankId : Nat) (lowSlot : Bool) (m : MapperBanks) : MapperBanks :=
  let c := Mapper.prgBankCount m
  if c >>> 1 > 0 then
    let actualBank := (bankId <<< 1) % c
    let slot := if lowSlot then 0 else 2
    let pm := u32store 4 m.prgPagesMap slot (actualBank <<< 13)
    { m with prgPagesMap := u32store 4 pm (slot + 1) ((actualBank + 1) <<< 13) }
  else m

/-- Embeds `Mapper.switch32kPrgBank`. -/
def Mapper.switch32kPrgBank (bankId : Nat) (m : MapperBanks) : MapperBanks :=
  let c := Mapper.prgBankCount m
  if c >>> 2 > 0 then
    let actualBank := (bankId <<< 2) % c
    let pm0 := u32store 4 m.prgPagesMap 0 ((actualBank + 0) <<< 13)
    let pm1 := u32store 4 pm0 1 ((actualBank + 1) <<< 13)
    let pm2 := u32store 4 pm1 2 ((actualBank + 2) <<< 13)
    let pm3 := u32store 4 pm2 3 ((actualBank + 3) <<< 13)
    { m with prgPagesMap := pm3 }
  else m

/-- Embeds `Mapper.switch1kChrBank`. -/
def Mapper.switch1kChrBank (bankId slot : Nat) (m : MapperBanks) : MapperBanks :=
  let c := Mapper.chrBankCount m
  let v := if c = 0 then 0 else (bankId % c) <<< 10
  { m with chrPagesMap := u32store 8 m.chrPagesMap slot v }

/-- Embeds `Mapper.switch2kChrBank`. -/
def Mapper.switch2kChrBank (bankId slot : Nat) (m : MapperBanks) : MapperBanks :=
  let c := Mapper.chrBankCount m
  if c >>> 1 > 0 then
    let actualBank := (bankId <<< 1) % c
    let cm := u32store 8 m.chrPagesMap slot (actualBank <<< 10)
    { m with chrPagesMap := u32store 8 cm (slot + 1) ((actualBank + 1) <<< 10) }
  else m

/-- Embeds `Mapper.switch4kChrBank`. -/
def Mapper.switch4kChrBank (bankId : Nat) (lowSlot : Bool) (m : MapperBanks) : MapperBanks :=
  let c := Mapper.chrBankCount m
  if c >>> 2 > 0 then
    let actualBank := (bankId <<< 2) % c
    let slot := if lowSlot then 0 else 4
    let cm0 := u32store 8 m.chrPagesMap (slot + 0) ((actualBank + 0) <<< 10)
    let cm1 := u32store 8 cm0 (slot + 1) ((actualBank + 1) <<< 10)
    let cm2 := u32store 8 cm1 (slot + 2) ((actualBank + 2) <<< 10)
    let cm3 := u32store 8 cm2 (slot + 3) ((actualBank + 3) <<< 10)
    { m with chrPagesMap := cm3 }
  else m

/-- Embeds `Mapper.switch8kChrBank`. -/
def Mapper.switch8kChrBank (bankId : Nat) (m : MapperBanks) : MapperBanks :=
  let c := Mapper.chrBankCount m
  if c >>> 3 > 0 then
    let actualBank := (bankId <<< 3) % c
    let cm0 := u32store 8 m.chrPagesMap 0 ((actualBank + 0) <<< 10)
    let cm1 := u32store 8 cm0 1 ((actualBank + 1) <<< 10)
    let cm2 := u32store 8 cm1 2 ((actualBank + 2) <<< 10)
    let cm3 := u32store 8 cm2 3 ((actualBank + 3) <<< 10)
    let cm4 := u32store 8 cm3 4 ((actualBank + 4) <<< 10)
    let cm5 := u32store 8 cm4 5 ((actualBank + 5) <<< 10)
    let cm6 := u32store 8 cm5 6 ((actualBank + 6) <<< 10)
    let cm7 := u32store 8 cm6 7 ((actualBank + 7) <<< 10)
    { m with chrPagesMap := cm7 }
  else m

/-- One bank-switch call on the base mapper, with the arguments the
specific mappers pass. -/
inductive BankOp where
  | p8 (bankId slot : Nat)
  | p16 (bankId : Nat) (lowSlot : Bool)
  | p32 (bankId : Nat)
  | c1 (bankId slot : Nat)
  | c2 (bankId slot : Nat)
  | c4 (bankId : Nat) (lowSlot : Bool)
  | c8 (bankId : Nat)

/-- Dispatches one `BankOp` to the corresponding switch function. -/
def Mapper.applyBankOp (op : BankOp) (m : MapperBanks) : MapperBanks :=
  match op with
  | BankOp.p8 bankId slot => Mapper.switch8kPrgBank bankId slot m
  | BankOp.p16 bankId lowSlot => Mapper.switch16kPrgBank bankId lowSlot m
  | BankOp.p32 bankId => Mapper.switch32kPrgBank bankId m
  | BankOp.c1 bankId slot => Mapper.switch1kChrBank bankId slot m
  | BankOp.c2 bankId slot => Mapper.switch2kChrBank bankId slot m
  | BankOp.c4 bankId lowSlot => Mapper.switch4kChrBank bankId lowSlot m
  | BankOp.c8 bankId => Mapper.switch8kChrBank bankId m

/-- Runs a sequence of bank-switch calls. -/
def Mapper.applyBankOps (ops : List BankOp) (m : MapperBanks) : MapperBanks :=
  ops.foldl (fun m op => Mapper.applyBankOp op m) m

/-- The bank-map invariant of the claim for the PRG side: every entry of
the 4-slot map is a multiple of 0x2000 and its whole 8 KiB slot lies
inside the PRG memory. -/
def Mapper.prgInv (m : MapperBanks) : Prop :=
  ∀ i, i < 4 → m.prgPagesMap i % 0x2000 = 0 ∧ m.prgPagesMap i + 0x2000 ≤ m.prgLen

/-- The bank-map invariant of the claim for the CHR side. -/
def Mapper.chrInv (m : MapperBanks) : Prop :=
  ∀ i, i < 8 → m.chrPagesMap i % 0x400 = 0 ∧ m.chrPagesMap i + 0x400 ≤ m.chrLen

/-- Conjunction of the PRG and CHR bank-map invariants. -/
def Mapper.banksInv (m : MapperBanks) : Prop :=
  Mapper.prgInv m ∧ Mapper.chrInv m

instance (m : MapperBanks) : Decidable (Mapper.prgInv m) := by
  unfold Mapper.prgInv; infer_instance

instance (m : MapperBanks) : Decidable (Mapper.chrInv m) := by
  unfold Mapper.chrInv; infer_instance

instance (m : MapperBanks) : Decidable (Mapper.banksInv m) := by
  unfold Mapper.banksInv; infer_instance

/-! ## MMC1 mapper (src/ai-nes, Mapper001)

State of the MMC1 serial-register machinery and the bank offsets it
drives.  `lastWriteInstruction` starts at -1 and records
`this.nes.cpu.instructionCount` at each accepted register write, so it is
modelled as `Int` with the instruction count passed as a parameter.  The
PPU mirroring mode set through `this.nes.ppu.setMirroring` is carried in
the `mirroring` field. -/
structure Mmc1 where
  shiftRegister : Nat
  writeCount : Nat
  lastWriteInstruction : Int
  controlRegister : Nat
  chrBank0 : Nat
  chrBank1 : Nat
  prgBank : Nat
  wramDisable : Bool
  prgBankCount : Nat
  chrSize : Nat
  usingChrRam : Bool
  prgBank0Offset : Nat
  prgBank1Offset : Nat
  chrBank0Offset : Nat
  chrBank1Offset : Nat
  chrPagesMap : Nat → Nat
  mirroring : Nat

/-- Embeds `Mapper001.updateMirroring`: maps the MMC1 mirror mode in the
low 2 control bits to the PPU mirroring mode. -/
def Mapper001.updateMirroring (m : Mmc1) : Mmc1 :=
  let mirrorMode := m.controlRegister &&& 0x03
  let newPpuMirroring :=
    if mirrorMode = 0 then 2
    else if mirrorMode = 1 then 3
    else if mirrorMode = 2 then 1
    else 0
  { m with mirroring := newPpuMirroring }

/-- Embeds `Mapper001.updateBankOffsets`.  The source assigns
`prgBank0Offset`/`prgBank1Offset` inside the PRG-mode switch and
`chrBank0Offset`/`chrBank1Offset`/`chrPagesMap` inside the CHR-mode
branch; here each branch produces the pair of values and the fields are
assigned once, which is the same function. -/
def Mapper001.updateBankOffsets (m : Mmc1) : Mmc1 :=
  let prgMode := (m.controlRegister >>> 2) &&& 0x03
  let chrMode := (m.controlRegister >>> 4) &&& 0x01
  let prgBankMask := if m.prgBankCount > 0 then m.prgBankCount - 1 else 0
  let prgHighBit :=
    if m.prgBankCount > 16 then
      if chrMode = 0 then (if m.chrBank0 &&& 0x10 ≠ 0 then 16 else 0)
      else (if m.chrBank1 &&& 0x10 ≠ 0 then 16 else 0)
    else 0
  let pOff : Nat × Nat :=
    if prgMode = 0 ∨ prgMode = 1 then
      let bank32 := ((m.prgBank &&& 0xE) ||| prgHighBit) >>> 1
      (bank32 <<< 15, (bank32 <<< 15) + 0x4000)
    else if prgMode = 2 then
      (prgHighBit <<< 14, (((m.prgBank &&& 0xF) ||| prgHighBit) &&& prgBankMask) <<< 14)
    else if prgMode = 3 then
      ((((m.prgBank &&& 0xF) ||| prgHighBit) &&& prgBankMask) <<< 14,
       ((0x0F ||| prgHighBit) &&& prgBankMask) <<< 14)
    else (m.prgBank0Offset, m.prgBank1Offset)
  let chrBankCount := if m.usingChrRam then 2 else m.chrSize >>> 12
  let chrBankMask := if chrBankCount > 0 then chrBankCount - 1 else 0
  let cOff : Nat × Nat :=
    if chrMode = 0 then
      let bank8 := (m.chrBank0 &&& 0x1E) &&& chrBankMask
      (bank8 <<< 12, ((bank8 + 1) &&& chrBankMask) <<< 12)
    else
      ((m.chrBank0 &&& chrBankMask) <<< 12, (m.chrBank1 &&& chrBankMask) <<< 12)
  { m with prgBank0Offset := pOff.1, prgBank1Offset := pOff.2,
           chrBank0Offset := cOff.1, chrBank1Offset := cOff.2,
           chrPagesMap := fun i =>
             if i < 4 then cOff.1 + (i <<< 10)
             else if i < 8 then cOff.2 + ((i - 4) <<< 10)
             else m.chrPagesMap i }

/-- Embeds `Mapper001.applyRegister`. -/
def Mapper001.applyRegister (regIndex value : Nat) (m : Mmc1) : Mmc1 :=
  if regIndex = 0 then
    Mapper001.updateBankOffsets (Mapper001.updateMirroring { m with controlRegister := value })
  else if regIndex = 1 then
    Mapper001.updateBankOffsets { m with chrBank0 := value }
  else if regIndex = 2 then
    Mapper001.updateBankOffsets { m with chrBank1 := value }
  else if regIndex = 3 then
    Mapper001.updateBankOffsets
      { m with prgBank := value &&& 0x0F, wramDisable := value &&& 0x10 ≠ 0 }
  else m

/-- Embeds `Mapper001.writeRegister`.  `inst` is the current
`this.nes.cpu.instructionCount` (the `this.nes && this.nes.cpu` guard is
always satisfied in a running console). -/
def Mapper001.writeRegister (inst : Int) (address data : Nat) (m : Mmc1) : Mmc1 :=
  if inst = m.lastWriteInstruction then m
  else
    let m := { m with lastWriteInstruction := inst }
    if data &&& 0x80 ≠ 0 then
      Mapper001.updateMirroring (Mapper001.updateBankOffsets
        { m with shiftRegister := 0x10, writeCount := 0,
                 controlRegister := m.controlRegister ||| 0x0C })
    else
      let m := { m with
        shiftRegister := ((m.shiftRegister >>> 1) ||| ((data &&& 1) <<< 4)) &&& 0x1F,
        writeCount := m.writeCount + 1 }
      if m.writeCount = 5 then
        let registerIndex := (address >>> 13) &&& 0x03
        let m := Mapper001.applyRegister registerIndex m.shiftRegister m
        { m with shiftRegister := 0x10, writeCount := 0 }
      else m

/-! ## APU noise channel (src/ai-nes/src/apu.js, NoiseChannel) -/

/-- The LFSR value installed by `NoiseChannel.reset`. -/
def NoiseChannel.resetShiftRegister : Nat := 1

/-- Embeds the LFSR update inside `NoiseChannel.clockTimer` (the branch
taken when the timer expires): feedback is bit 0 xor the tap bit (bit 1 in
mode 0, bit 6 in mode 1); the register shifts right one and the feedback
enters bit 14. -/
def NoiseChannel.lfsrStep (modeFlag : Bool) (shiftRegister : Nat) : Nat :=
  let bit0 := shiftRegister &&& 1
  let tap := (shiftRegister >>> (if modeFlag then 6 else 1)) &&& 1
  let feedback := bit0 ^^^ tap
  (shiftRegister >>> 1) ||| (feedback <<< 14)

/-! ## PPU registers (src/ai-nes/src/ppu.js)

Register-level model of the PPU as seen from the CPU bus: the fields of
the `PPU` class touched by `readRegister`, `writeRegister`, `readVRAM`,
`writeVRAM` and `mirrorAddress`.  The mapper reached through
`this.nes.mmap` is abstracted as a record of response functions
(`MapperHooks`); a consumed write mutates only mapper-owned memory, which
is outside this state.  The rendering pipeline fields (shift registers,
sprite latches, framebuffer) are not part of this state and none of the
functions below read them.  `scanline` and `cycle` appear as inputs read
by the status-register race check; this model does not advance them
(`PpuTiming.step` below embeds the dot advance). -/

structure MapperHooks where
  ppuRead : Nat → Option Nat
  ppuWrite : Nat → Nat → Bool
  hasNametableOverride : Bool
  readNametable : Nat → Option Nat

structure PpuRegs where
  vramMem : Nat → Nat
  oam : Nat → Nat
  oamAddr : Nat
  palette : Nat → Nat
  ctrl : Nat
  mask : Nat
  status : Nat
  v : Nat
  t : Nat
  x : Nat
  w : Nat
  ioBus : Nat
  bufferedRead : Nat
  mirroring : Nat
  scanline : Nat
  cycle : Nat
  inWarmup : Bool
  nmiOccurred : Bool
  nmiOutput : Bool
  nmiPrevious : Bool
  nmiDelay : Nat

/-- Embeds `PPU.setStatusFlag` as a pure function on the status byte.
JS `~n` is 32-bit complement; status only ever holds bits set by this
function, so the 32-bit mask is exact. -/
def PPU.setStatusFlag (status flag : Nat) (value : Bool) : Nat :=
  let n := 1 <<< flag
  if value then status ||| n else status &&& (0xFFFFFFFF ^^^ n)

/-- Embeds `PPU.nmiChange` on the register-level state. -/
def PPU.nmiChange (s : PpuRegs) : PpuRegs :=
  let nmi := s.nmiOutput && s.nmiOccurred && !s.inWarmup
  let s := if nmi && !s.nmiPrevious then { s with nmiDelay := 3 } else s
  { s with nmiPrevious := nmi }

/-- Embeds `PPU.mirrorAddress` (nametable mirroring; pattern addresses
pass through). -/
def PPU.mirrorAddress (mirroring addr : Nat) : Nat :=
  if addr < 0x2000 then addr
  else
    let a := addr &&& 0x0FFF
    let table := a >>> 10
    let offset := a &&& 0x03FF
    if mirroring = 0 then 0x2000 + (if table < 2 then offset else offset + 0x400)
    else if mirroring = 1 then 0x2000 + (if table % 2 = 0 then offset else offset + 0x400)
    else if mirroring = 2 then 0x2000 + offset
    else if mirroring = 3 then 0x2000 + offset + 0x400
    else if mirroring = 4 then 0x2000 + a
    else 0x2000 + (a &&& 0x07FF)

/-- Embeds `PPU.readVRAM`: mapper interception for pattern space first,
then the nametable override, then internal VRAM, with palette space
handled by `readPalette`. -/
def PPU.readVRAM (h : MapperHooks) (s : PpuRegs) (addr : Nat) : Nat :=
  let addr := addr &&& 0x3FFF
  if addr < 0x2000 then
    match h.ppuRead addr with
    | some val => val
    | none => s.vramMem (PPU.mirrorAddress s.mirroring addr)
  else if addr < 0x3F00 then
    if h.hasNametableOverride then
      match h.readNametable addr with
      | some val => val
      | none => s.vramMem (PPU.mirrorAddress s.mirroring addr)
    else s.vramMem (PPU.mirrorAddress s.mirroring addr)
  else PPU.readPalette s.palette addr

/-- Embeds `PPU.writeVRAM`: pattern-space writes offered to the mapper
(consumed CHR-RAM writes leave this state untouched), nametable writes
consumed by an override mapper, otherwise internal VRAM; palette space
goes to `writePalette`. -/
def PPU.writeVRAM (h : MapperHooks) (s : PpuRegs) (addr value : Nat) : PpuRegs :=
  let addr := addr &&& 0x3FFF
  if addr < 0x3F00 then
    if addr < 0x2000 then
      if h.ppuWrite addr value then s
      else { s with vramMem := u8store 0x8000 s.vramMem (PPU.mirrorAddress s.mirroring addr) value }
    else if h.hasNametableOverride then s
    else { s with vramMem := u8store 0x8000 s.vramMem (PPU.mirrorAddress s.mirroring addr) value }
  else { s with palette := PPU.writePalette s.palette addr value }

/-- Embeds `PPU.readRegister`: returns the byte placed on the CPU bus and
the new PPU state.  Registers other than 2, 4 and 7 return the I/O bus
latch.  Every read stores its result back into the latch. -/
def PPU.readRegister (h : MapperHooks) (s : PpuRegs) (addr : Nat) : Nat × PpuRegs :=
  let reg := addr &&& 7
  let rs : Nat × PpuRegs :=
    if reg = 2 then
      let result := (s.status &&& 0xE0) ||| (s.ioBus &&& 0x1F)
      let result := if s.scanline = 241 ∧ s.cycle = 1 then result &&& 0x7F else result
      let s := PPU.nmiChange
        { s with status := PPU.setStatusFlag s.status 7 false, nmiOccurred := false }
      (result, { s with w := 0 })
    else if reg = 4 then
      (s.oam s.oamAddr, s)
    else if reg = 7 then
      let vramAddr := s.v &&& 0x3FFF
      let rs : Nat × PpuRegs :=
        if 0x3F00 ≤ vramAddr then
          (PPU.readPalette s.palette vramAddr,
           { s with bufferedRead := s.vramMem (PPU.mirrorAddress s.mirroring vramAddr) })
        else
          (s.bufferedRead, { s with bufferedRead := PPU.readVRAM h s vramAddr })
      let s2 := rs.2
      (rs.1, { s2 with v := (s2.v + (if s2.ctrl &&& 0x04 ≠ 0 then 32 else 1)) &&& 0x7FFF })
    else
      (s.ioBus, s)
  (rs.1, { rs.2 with ioBus := rs.1 })

/-- Embeds `PPU.writeRegister`.  Mapper notifications
(`onPpuRegisterWrite`) and the palette-table emphasis update touch only
collaborator state and are omitted; writes to register 2 are ignored. -/
def PPU.writeRegister (h : MapperHooks) (s : PpuRegs) (addr value : Nat) : PpuRegs :=
  let reg := addr &&& 7
  let s := { s with ioBus := value }
  if s.inWarmup ∧ (reg = 0 ∨ reg = 1 ∨ reg = 5 ∨ reg = 6) then s
  else if reg = 0 then
    PPU.nmiChange
      { s with ctrl := value,
               t := (s.t &&& 0xF3FF) ||| ((value &&& 0x03) <<< 10),
               nmiOutput := (value >>> 7) &&& 1 = 1 }
  else if reg = 1 then
    { s with mask := value }
  else if reg = 2 then s
  else if reg = 3 then
    { s with oamAddr := value }
  else if reg = 4 then
    let renderingEnabled := s.mask &&& 0x18 ≠ 0
    let onScreenScanline := s.scanline < 240
    if renderingEnabled ∧ onScreenScanline then
      { s with oamAddr := (s.oamAddr + 4) &&& 0xFF }
    else
      let value := if s.oamAddr &&& 3 = 2 then value &&& 0xE3 else value
      { s with oam := u8store 256 s.oam s.oamAddr value,
               oamAddr := (s.oamAddr + 1) &&& 0xFF }
  else if reg = 5 then
    if s.w = 0 then
      { s with x := value &&& 7, t := (s.t &&& 0xFFE0) ||| (value >>> 3), w := 1 }
    else
      let fineY := (value &&& 0x07) <<< 12
      let coarseY := (value &&& 0xF8) <<< 2
      { s with t := (s.t &&& 0x8C1F) ||| fineY ||| coarseY, w := 0 }
  else if reg = 6 then
    if s.w = 0 then
      { s with t := (s.t &&& 0x00FF) ||| ((value &&& 0x3F) <<< 8), w := 1 }
    else
      let t := (s.t &&& 0xFF00) ||| value
      { s with t := t, v := t, w := 0 }
  else
    let s := PPU.writeVRAM h s s.v value
    { s with v := (s.v + (if s.ctrl &&& 0x04 ≠ 0 then 32 else 1)) &&& 0x7FFF }

/-- Concrete mapper hooks that intercept nothing, used to evaluate the
register-level facts on one input. -/
def c3hooks : MapperHooks :=
  { ppuRead := fun _ => none, ppuWrite := fun _ _ => false,
    hasNametableOverride := false, readNametable := fun _ => none }

/-- A concrete register-level PPU state (all counters zero, warm-up over),
used to evaluate the register-level facts on one input. -/
def c3regs : PpuRegs :=
  { vramMem := fun _ => 0, oam := fun _ => 0, oamAddr := 0,
    palette := fun _ => 0, ctrl := 0, mask := 0, status := 0, v := 0, t := 0,
    x := 0, w := 0, ioBus := 0, bufferedRead := 0, mirroring := 0,
    scanline := 0, cycle := 0, inWarmup := false, nmiOccurred := false,
    nmiOutput := false, nmiPrevious := false, nmiDelay := 0 }

/-! ## PPU dot timing and VBlank/NMI (src/ai-nes/src/ppu.js, PPU.step)

Projection of `PPU.step` onto the fields that drive frame timing, the
VBlank flag and NMI generation.  The parts of `step` not reproduced here
are the rendering pipeline (pixel emission, background fetches, scroll
counter updates, sprite evaluation and the mapper hooks), which write only
the framebuffer, the loopy v register, the shift registers, the sprite
latches and status bits 5 and 6; none of those are read by the logic
below, and nothing below writes them.  `status` carries the full status
byte; within this model only bit 7 (VBlank) is ever set, and the
pre-render clear of bits 5 and 6 is included as in the source.  A call of
`this.nes.cpu.requestIrq(IRQ_NMI)` is recorded by the `nmiRequested`
flag.  `endFrame` only hands the framebuffer to the host. -/

structure PpuTiming where
  status : Nat
  ioBus : Nat
  w : Nat
  mask : Nat
  scanline : Nat
  cycle : Nat
  frame : Nat
  oddFrame : Bool
  frameComplete : Bool
  inWarmup : Bool
  nmiOccurred : Bool
  nmiOutput : Bool
  nmiPrevious : Bool
  nmiDelay : Nat
  nmiRequested : Bool

/-- Embeds `PPU.nmiChange` on the timing state. -/
def PpuTiming.nmiChange (s : PpuTiming) : PpuTiming :=
  let nmi := s.nmiOutput && s.nmiOccurred && !s.inWarmup
  let s := if nmi && !s.nmiPrevious then { s with nmiDelay := 3 } else s
  { s with nmiPrevious := nmi }

/-- Embeds the VBlank-start block of `PPU.step` (scanline 241, cycle 1):
set the internal latch and the VBlank flag, then `nmiChange`. -/
def PpuTiming.stepVblankSet (s : PpuTiming) : PpuTiming :=
  if s.scanline = 241 ∧ s.cycle = 1 then
    PpuTiming.nmiChange
      { s with nmiOccurred := true, status := PPU.setStatusFlag s.status 7 true }
  else s

/-- Embeds the pre-render block of `PPU.step` (scanline 261, cycle 1):
clear VBlank, sprite-0 hit and overflow, drop the latch, `nmiChange`,
and end the warm-up period. -/
def PpuTiming.stepPreRenderClear (s : PpuTiming) : PpuTiming :=
  if s.scanline = 261 ∧ s.cycle = 1 then
    let s := PpuTiming.nmiChange
      { s with
        status := PPU.setStatusFlag
          (PPU.setStatusFlag (PPU.setStatusFlag s.status 7 false) 6 false) 5 false,
        nmiOccurred := false }
    if s.inWarmup then { s with inWarmup := false } else s
  else s

/-- Embeds the cycle/scanline/frame advance at the end of `PPU.step`,
including the 340-dot pre-render line on odd frames with rendering
enabled.  `re` is the rendering-enabled value computed at the top of
`step`. -/
def PpuTiming.stepAdvance (re : Bool) (s : PpuTiming) : PpuTiming :=
  let cycle := s.cycle + 1
  let cyclesThisScanline :=
    if s.oddFrame && decide (s.scanline = 261) && re then 340 else 341
  if cycle ≥ cyclesThisScanline then
    let scanline := s.scanline + 1
    if scanline > 261 then
      { s with cycle := 0, scanline := 0, frame := s.frame + 1,
               oddFrame := !s.oddFrame, frameComplete := true }
    else
      { s with cycle := 0, scanline := scanline }
  else { s with cycle := cycle }

/-- Embeds the NMI-delay countdown at the end of `PPU.step`: when the
delay reaches zero with output and latch set, the CPU-visible NMI is
requested. -/
def PpuTiming.stepNmiDelay (s : PpuTiming) : PpuTiming :=
  if s.nmiDelay > 0 then
    let nmiDelay := s.nmiDelay - 1
    if nmiDelay = 0 ∧ s.nmiOutput ∧ s.nmiOccurred then
      { s with nmiDelay := nmiDelay, nmiRequested := true }
    else { s with nmiDelay := nmiDelay }
  else s

/-- Embeds `PPU.step` restricted to the fields of `PpuTiming` (see the
section comment): the VBlank start at scanline 241 dot 1, the pre-render
clear at scanline 261 dot 1, the cycle/scanline/frame advance with the
odd-frame skip, and the delayed NMI request, in source order.  The
rendering-enabled test is evaluated once at entry, as in the source. -/
def PpuTiming.step (s : PpuTiming) : PpuTiming :=
  let renderingEnabled := (s.mask &&& 0x08 ≠ 0) || (s.mask &&& 0x10 ≠ 0)
  PpuTiming.stepNmiDelay
    (PpuTiming.stepAdvance renderingEnabled
      (PpuTiming.stepPreRenderClear (PpuTiming.stepVblankSet s)))

/-- Embeds case 2 of `PPU.readRegister` (the STATUS read) on the timing
state: returns the byte placed on the bus and the new state.  The race
path at scanline 241 dot 1 masks the VBlank bit out of the result. -/
def PpuTiming.readStatus (s : PpuTiming) : Nat × PpuTiming :=
  let result := (s.status &&& 0xE0) ||| (s.ioBus &&& 0x1F)
  let result := if s.scanline = 241 ∧ s.cycle = 1 then result &&& 0x7F else result
  let s := PpuTiming.nmiChange
    { s with status := PPU.setStatusFlag s.status 7 false, nmiOccurred := false }
  let s := { s with w := 0 }
  (result, { s with ioBus := result })

/-! ## Proof-support abstraction of the frame advance

`Adv` projects `PpuTiming` onto the five fields that the cycle/scanline
advance reads and writes; `advStep` is that advance in isolation.  The
lemma `PpuTiming.toAdv_step` below identifies one `PpuTiming.step` with
one `advStep` under this projection, which lets frame-length facts be
proved once over the small state. -/

structure Adv where
  scanline : Nat
  cycle : Nat
  frame : Nat
  oddFrame : Bool
  frameComplete : Bool

/-- Projection of the timing state onto the frame-advance fields. -/
def PpuTiming.toAdv (s : PpuTiming) : Adv :=
  { scanline := s.scanline, cycle := s.cycle, frame := s.frame,
    oddFrame := s.oddFrame, frameComplete := s.frameComplete }

/-- The rendering-enabled test computed at the top of `PPU.step`:
`(this.mask & 0x08) || (this.mask & 0x10)`. -/
def maskRenderingEnabled (mask : Nat) : Bool :=
  (mask &&& 0x08 ≠ 0) || (mask &&& 0x10 ≠ 0)

/-- The cycle/scanline/frame advance of `PPU.step` on the projected
state, with the rendering-enabled bit as a parameter. -/
def advStep (re : Bool) (a : Adv) : Adv :=
  let cycle := a.cycle + 1
  let cyclesThisScanline :=
    if a.oddFrame && decide (a.scanline = 261) && re then 340 else 341
  if cycle ≥ cyclesThisScanline then
    let scanline := a.scanline + 1
    if scanline > 261 then
      { a with cycle := 0, scanline := 0, frame := a.frame + 1,
               oddFrame := !a.oddFrame, frameComplete := true }
    else { a with cycle := 0, scanline := scanline }
  else { a with cycle := cycle }

/-- A concrete power-on timing state (all counters zero, flags clear),
used to evaluate the frame-length facts on one input. -/
def c5init : PpuTiming :=
  { status := 0, ioBus := 0, w := 0, mask := 0, scanline := 0, cycle := 0,
    frame := 0, oddFrame := false, frameComplete := false, inWarmup := false,
    nmiOccurred := false, nmiOutput := false, nmiPrevious := false,
    nmiDelay := 0, nmiRequested := false }

/-! ## Helper lemmas -/

theorem nat_and_mask_eq_mod (x : Nat) :
    x &&& 0x1F = x % 32 ∧ x &&& 3 = x % 4 ∧ x &&& 0xFF = x % 256 ∧
    x &&& 0x3FFF = x % 16384 ∧ x &&& 0x3F = x % 64 := by
  refine ⟨?_, ?_, ?_, ?_, ?_⟩
  · have h : (0x1F : Nat) = 2 ^ 5 - 1 := by norm_num
    rw [h, Nat.and_pow_two_sub_one_eq_mod]
  · have h : (3 : Nat) = 2 ^ 2 - 1 := by norm_num
    rw [h, Nat.and_pow_two_sub_one_eq_mod]
  · have h : (0xFF : Nat) = 2 ^ 8 - 1 := by norm_num
    rw [h, Nat.and_pow_two_sub_one_eq_mod]
  · have h : (0x3FFF : Nat) = 2 ^ 14 - 1 := by norm_num
    rw [h, Nat.and_pow_two_sub_one_eq_mod]
  · have h : (0x3F : Nat) = 2 ^ 6 - 1 := by norm_num
    rw [h, Nat.and_pow_two_sub_one_eq_mod]

theorem PPU.paletteIndex_lt (addr : Nat) : PPU.paletteIndex addr < 32 := by
  unfold PPU.paletteIndex
  have h : addr &&& 0x1F < 32 := Nat.and_lt_two_pow addr (n := 5) (by norm_num)
  dsimp only
  split
  · omega
  · exact h

theorem PPU.paletteIndex_eq (addr : Nat) :
    PPU.paletteIndex addr =
      if 0x10 ≤ addr % 32 ∧ addr % 32 % 4 = 0 then addr % 32 - 0x10 else addr % 32 := by
  unfold PPU.paletteIndex
  dsimp only
  rw [(nat_and_mask_eq_mod addr).1, (nat_and_mask_eq_mod (addr % 32)).2.1]

theorem PPU.readPalette_writePalette (pal : Nat → Nat) (x y b : Nat) :
    PPU.readPalette (PPU.writePalette pal x b) y =
      if PPU.paletteIndex y = PPU.paletteIndex x then b % 256
      else pal (PPU.paletteIndex y) := by
  unfold PPU.readPalette PPU.writePalette u8store
  simp [PPU.paletteIndex_lt x]

/-! ## Claim C4 — palette mirroring -/

/-- Claim C4: for every palette address a in 0x3F10, 0x3F14, 0x3F18,
0x3F1C and every byte b, a palette write of b to a is read back at
a - 0x10 and vice versa; every other palette address, taken modulo 0x20,
reads and writes its own storage unaliased (its effective index is its
own masked address, a write there is read back there, and it disturbs no
storage cell of a different index). -/
theorem palette_alias_c4 :
    (∀ a, (a = 0x3F10 ∨ a = 0x3F14 ∨ a = 0x3F18 ∨ a = 0x3F1C) →
      ∀ b, b < 256 → ∀ pal : Nat → Nat,
        PPU.readPalette (PPU.writePalette pal a b) (a - 0x10) = b ∧
        PPU.readPalette (PPU.writePalette pal (a - 0x10) b) a = b) ∧
    (∀ addr b, ∀ pal : Nat → Nat,
      ¬(addr % 0x20 = 0x10 ∨ addr % 0x20 = 0x14 ∨ addr % 0x20 = 0x18 ∨ addr % 0x20 = 0x1C) →
      b < 256 →
        PPU.paletteIndex addr = addr % 0x20 ∧
        PPU.readPalette (PPU.writePalette pal addr b) addr = b ∧
        (∀ other, PPU.paletteIndex other ≠ PPU.paletteIndex addr →
          PPU.readPalette (PPU.writePalette pal addr b) other = PPU.readPalette pal other)) := by
  constructor
  · intro a ha b hb pal
    have hb256 : b % 256 = b := Nat.mod_eq_of_lt hb
    rcases ha with rfl | rfl | rfl | rfl <;>
      exact ⟨by rw [PPU.readPalette_writePalette, if_pos (by decide)]; exact hb256,
             by rw [PPU.readPalette_writePalette, if_pos (by decide)]; exact hb256⟩
  · intro addr b pal hno hb
    have hb256 : b % 256 = b := Nat.mod_eq_of_lt hb
    have hidx : PPU.paletteIndex addr = addr % 0x20 := by
      rw [PPU.paletteIndex_eq]
      have hm : addr % 32 < 32 := Nat.mod_lt _ (by norm_num)
      have : ¬(0x10 ≤ addr % 32 ∧ addr % 32 % 4 = 0) := by omega
      simp [this]
    refine ⟨hidx, ?_, ?_⟩
    · rw [PPU.readPalette_writePalette]
      simp [hb256]
    · intro other hother
      rw [PPU.readPalette_writePalette, if_neg hother, PPU.readPalette]

/-- Witness for claim C4 at a = 0x3F10, b = 7, the zero palette, and the
non-aliased address 0x3F01. -/
theorem palette_alias_c4_witness :
    PPU.readPalette (PPU.writePalette (fun _ => 0) 0x3F10 7) 0x3F00 = 7 ∧
    PPU.readPalette (PPU.writePalette (fun _ => 0) 0x3F01 7) 0x3F01 = 7 := by
  constructor
  · exact ((palette_alias_c4.1 0x3F10 (by decide) 7 (by decide) (fun _ => 0)).1)
  · exact ((palette_alias_c4.2 0x3F01 7 (fun _ => 0) (by decide) (by decide)).2.1)

/-! ## Claim C1 — determinism of RAM initialisation -/

/-- Claim C1 counterexample: with `ramInitPattern = "random"` (the
default), `Mapper.fillRam` consults the host PRNG (`Math.random`), which
is not among the inputs the claim fixes.  Two runs whose PRNG draws
differ produce different initial work-RAM contents from identical ROM
bytes, configuration and input traces, so the machine state feeding the
emitted frames and audio is not a function of the claimed inputs. -/
theorem fillRam_random_counterexample_c1 :
    Mapper.fillRam "random" (fun _ => 0) (List.replicate 0x2000 0) ≠
      Mapper.fillRam "random" (fun _ => 1) (List.replicate 0x2000 0) := by
  have h0 : ∀ r : Nat → Nat,
      (Mapper.fillRam "random" r (List.replicate 0x2000 0)).getD 0 99 = r 0 % 256 := by
    intro r
    unfold Mapper.fillRam
    rw [if_neg (by decide)]
    norm_num [List.getD_eq_getElem?_getD, List.getElem?_map, List.getElem?_range]
  intro h
  have h2 := congrArg (fun l : List Nat => l.getD 0 99) h
  simp only [h0] at h2
  norm_num at h2

/-- Claim C1 amended: for every `ramInitPattern` other than "random",
`Mapper.fillRam` does not read the PRNG stream, so the RAM contents after
initialisation are a function of the claimed inputs alone. -/
theorem fillRam_deterministic_c1 :
    ∀ (pattern : String) (rng1 rng2 : Nat → Nat) (ram : List Nat),
      pattern ≠ "random" →
      Mapper.fillRam pattern rng1 ram = Mapper.fillRam pattern rng2 ram := by
  intro pattern rng1 rng2 ram hp
  by_cases hff : pattern = "all_ff"
  · simp [Mapper.fillRam, hff]
  · simp [Mapper.fillRam, hff, hp]

/-- Witness for claim C1 at pattern "all_ff" with two distinct PRNG
streams. -/
theorem fillRam_deterministic_c1_witness :
    Mapper.fillRam "all_ff" (fun _ => 0) [0, 0] =
      Mapper.fillRam "all_ff" (fun _ => 1) [0, 0] :=
  fillRam_deterministic_c1 "all_ff" (fun _ => 0) (fun _ => 1) [0, 0] (by decide)

/-! ## Claim C2 — bad cartridge image handling -/

/-- Claim C2 counterexample: a 16-byte input with a valid "NES\x1A" magic
whose header byte 4 declares one 16 KiB PRG bank but which carries no
payload at all.  The claim says `load_rom` fails on such a truncated
image; `ROM.load` instead succeeds (padding the missing PRG bytes with
zero). -/
theorem rom_load_truncated_counterexample_c2 :
    [0x4E, 0x45, 0x53, 0x1A, 1, 0, 0, 0, 0, 0, 0, 0, 0, 0, 0, 0].length = 16 ∧
    (ROM.load [0x4E, 0x45, 0x53, 0x1A, 1, 0, 0, 0, 0, 0, 0, 0, 0, 0, 0, 0]).isOk = true := by
  constructor
  · rfl
  · rw [ROM.load, if_neg (by decide)]
    rfl

/-- Claim C2 amended: `load_rom` fails with the descriptive error message
exactly when the input is shorter than 16 bytes or its first bytes are
not the iNES magic, and such a failure installs no state (the object is
returned unchanged); an image whose PRG/CHR payload is truncated relative
to header bytes 4 and 5 is NOT rejected: the load succeeds, allocates the
full declared sizes, and reads every missing payload byte as zero. -/
theorem rom_load_c2 :
    (∀ (prev : RomState) (data : List Nat), ROM.badHeader data →
      ROM.loadMut prev data = (prev, some ROM.badHeaderMsg)) ∧
    (∀ data : List Nat, ¬ ROM.badHeader data →
      ROM.load data = Except.ok (ROM.loadOk data) ∧
      (ROM.loadOk data).romCount = data.getD 4 0 ∧
      (ROM.loadOk data).vromCount = data.getD 5 0 * 2 ∧
      (ROM.loadOk data).prg.length = (ROM.loadOk data).romCount * 16384 ∧
      (ROM.loadOk data).chr.length = (ROM.loadOk data).vromCount * 4096 ∧
      (ROM.loadOk data).valid = true ∧
      (∀ k, k < (ROM.loadOk data).prg.length →
        data.length ≤ 16 + (if (ROM.loadOk data).trainer then 512 else 0) + k →
        (ROM.loadOk data).prg.getD k 99 = 0)) := by
  constructor
  · intro prev data h
    unfold ROM.loadMut ROM.load
    rw [if_pos h]
  · intro data h
    refine ⟨by unfold ROM.load; rw [if_neg h], rfl, rfl, by simp [ROM.loadOk],
            by simp [ROM.loadOk], rfl, ?_⟩
    intro k hk hlen
    simp only [ROM.loadOk, List.length_map, List.length_range] at hk hlen ⊢
    rw [List.getD_eq_getElem?_getD, List.getElem?_map, List.getElem?_range hk]
    simp only [Option.map_some', Option.getD_some]
    rw [List.getD_eq_getElem?_getD, List.getElem?_eq_none (by simpa using hlen)]
    rfl

/-- Witness for claim C2: the failing branch applied to the empty input
and a fresh ROM object, and the padding branch applied to the truncated
image of the counterexample. -/
theorem rom_load_c2_witness :
    ROM.loadMut RomState.init [] = (RomState.init, some ROM.badHeaderMsg) ∧
    (ROM.load [0x4E, 0x45, 0x53, 0x1A, 1, 0, 0, 0, 0, 0, 0, 0, 0, 0, 0, 0] =
      Except.ok (ROM.loadOk [0x4E, 0x45, 0x53, 0x1A, 1, 0, 0, 0, 0, 0, 0, 0, 0, 0, 0, 0])) := by
  constructor
  · exact rom_load_c2.1 RomState.init [] (by decide)
  · exact (rom_load_c2.2 [0x4E, 0x45, 0x53, 0x1A, 1, 0, 0, 0, 0, 0, 0, 0, 0, 0, 0, 0]
      (by decide)).1

/-! ## Claim C10 — OAMDATA writes -/

/-- Claim C10: a CPU write of byte b to OAMDATA (register 4) with
rendering enabled (MASK bit 3 or 4) on a visible scanline (0-239) leaves
all OAM bytes unchanged and bumps OAMADDR by 4 modulo 256; otherwise b is
stored at OAMADDR (with bits 2-4 cleared when OAMADDR mod 4 = 2) and
OAMADDR is bumped by 1 modulo 256. -/
theorem oamdata_write_c10 :
    ∀ (h : MapperHooks) (s : PpuRegs) (b : Nat), b < 256 → s.oamAddr < 256 →
      ((s.mask &&& 0x18 ≠ 0 ∧ s.scanline < 240) →
        (∀ i, (PPU.writeRegister h s 0x2004 b).oam i = s.oam i) ∧
        (PPU.writeRegister h s 0x2004 b).oamAddr = (s.oamAddr + 4) % 256) ∧
      (¬(s.mask &&& 0x18 ≠ 0 ∧ s.scanline < 240) →
        (PPU.writeRegister h s 0x2004 b).oam s.oamAddr =
          (if s.oamAddr % 4 = 2 then b &&& 0xE3 else b) ∧
        (∀ i, i ≠ s.oamAddr → (PPU.writeRegister h s 0x2004 b).oam i = s.oam i) ∧
        (PPU.writeRegister h s 0x2004 b).oamAddr = (s.oamAddr + 1) % 256) := by
  intro h s b hb hoam
  have hreg : (0x2004 &&& 7 : Nat) = 4 := by decide
  constructor
  · intro hcond
    unfold PPU.writeRegister
    rw [hreg]
    simp only [if_neg (by simp : ¬(s.inWarmup ∧ ((4:Nat) = 0 ∨ (4:Nat) = 1 ∨ (4:Nat) = 5 ∨ (4:Nat) = 6)))]
    norm_num [if_pos hcond, (nat_and_mask_eq_mod (s.oamAddr + 4)).2.2.1]
  · intro hcond
    unfold PPU.writeRegister
    rw [hreg]
    simp only [if_neg (by simp : ¬(s.inWarmup ∧ ((4:Nat) = 0 ∨ (4:Nat) = 1 ∨ (4:Nat) = 5 ∨ (4:Nat) = 6)))]
    norm_num [if_neg hcond, u8store, hoam,
      (nat_and_mask_eq_mod (s.oamAddr + 1)).2.2.1, (nat_and_mask_eq_mod s.oamAddr).2.1]
    refine ⟨?_, ?_⟩
    · split
      · have : b &&& 0xE3 < 256 := by
          have := Nat.and_le_right (n := b) (m := 0xE3)
          omega
        omega
      · omega
    · intro i hi
      simp [hi]

/-- Witness for claim C10: rendering disabled, OAMADDR = 2 (an attribute
byte), writing 0xFF stores 0xE3 and bumps OAMADDR to 3. -/
theorem oamdata_write_c10_witness :
    (PPU.writeRegister
      ⟨fun _ => none, fun _ _ => false, false, fun _ => none⟩
      { vramMem := fun _ => 0, oam := fun _ => 0, oamAddr := 2,
        palette := fun _ => 0, ctrl := 0, mask := 0, status := 0, v := 0,
        t := 0, x := 0, w := 0, ioBus := 0, bufferedRead := 0, mirroring := 0,
        scanline := 0, cycle := 0, inWarmup := false, nmiOccurred := false,
        nmiOutput := false, nmiPrevious := false, nmiDelay := 0 }
      0x2004 0xFF).oam 2 = 0xE3 := by
  have h := (oamdata_write_c10
    ⟨fun _ => none, fun _ _ => false, false, fun _ => none⟩
    { vramMem := fun _ => 0, oam := fun _ => 0, oamAddr := 2,
      palette := fun _ => 0, ctrl := 0, mask := 0, status := 0, v := 0,
      t := 0, x := 0, w := 0, ioBus := 0, bufferedRead := 0, mirroring := 0,
      scanline := 0, cycle := 0, inWarmup := false, nmiOccurred := false,
      nmiOutput := false, nmiPrevious := false, nmiDelay := 0 }
    0xFF (by decide) (by decide)).2 (by decide)
  rw [h.1]
  decide

/-! ## Claim C9 — bank-map invariant -/

/-- Claim C9 counterexample: with non-empty memories whose sizes are not
multiples of the switch widths, the modular clamp does not keep
multi-slot switches in range.  With a 0x6000-byte PRG (three 8 KiB
banks), `switch16kPrgBank 1` maps slot 1 to offset 0x6000, the end of
PRG memory; with a 0xC000-byte PRG (a legal 48 KiB image, a multiple of
16 KiB), `switch32kPrgBank 1` maps slots 2 and 3 beyond the end of PRG
memory. -/
theorem bank_inv_counterexample_c9 :
    (0 : Nat) < 0x6000 ∧ (0 : Nat) < 0x2000 ∧
    ¬ Mapper.banksInv (Mapper.switch16kPrgBank 1 true (Mapper.initBanks 0x6000 0x2000)) ∧
    (0 : Nat) < 0xC000 ∧
    ¬ Mapper.banksInv (Mapper.switch32kPrgBank 1 (Mapper.initBanks 0xC000 0x2000)) := by
  decide

theorem Mapper.prg_store_inv (len : Nat) (pm : Nat → Nat) (slot v : Nat)
    (hinv : ∀ i, i < 4 → pm i % 0x2000 = 0 ∧ pm i + 0x2000 ≤ len)
    (hv : v % 0x2000 = 0 ∧ v + 0x2000 ≤ len) :
    ∀ i, i < 4 → u32store 4 pm slot v i % 0x2000 = 0 ∧ u32store 4 pm slot v i + 0x2000 ≤ len := by
  intro i hi
  unfold u32store
  split
  · exact hv
  · exact hinv i hi

theorem Mapper.chr_store_inv (len : Nat) (cm : Nat → Nat) (slot v : Nat)
    (hinv : ∀ i, i < 8 → cm i % 0x400 = 0 ∧ cm i + 0x400 ≤ len)
    (hv : v % 0x400 = 0 ∧ v + 0x400 ≤ len) :
    ∀ i, i < 8 → u32store 8 cm slot v i % 0x400 = 0 ∧ u32store 8 cm slot v i + 0x400 ≤ len := by
  intro i hi
  unfold u32store
  split
  · exact hv
  · exact hinv i hi

theorem Mapper.applyBankOp_lens (op : BankOp) (m : MapperBanks) :
    (Mapper.applyBankOp op m).prgLen = m.prgLen ∧
    (Mapper.applyBankOp op m).chrLen = m.chrLen := by
  cases op <;>
    simp only [Mapper.applyBankOp, Mapper.switch8kPrgBank, Mapper.switch16kPrgBank,
      Mapper.switch32kPrgBank, Mapper.switch1kChrBank, Mapper.switch2kChrBank,
      Mapper.switch4kChrBank, Mapper.switch8kChrBank] <;>
    (try split_ifs) <;> simp

theorem Mapper.prg_entry_ok (pk a : Nat) (ha : a + 1 ≤ 4 * pk) :
    (a <<< 13) % 0x2000 = 0 ∧ (a <<< 13) + 0x2000 ≤ 0x8000 * pk := by
  rw [Nat.shiftLeft_eq]
  have h13 : (2 : Nat) ^ 13 = 8192 := by norm_num
  rw [h13]
  exact ⟨Nat.mul_mod_left a 8192, by omega⟩

theorem Mapper.chr_entry_ok (ck a : Nat) (ha : a + 1 ≤ 8 * ck) :
    (a <<< 10) % 0x400 = 0 ∧ (a <<< 10) + 0x400 ≤ 0x2000 * ck := by
  rw [Nat.shiftLeft_eq]
  have h10 : (2 : Nat) ^ 10 = 1024 := by norm_num
  rw [h10]
  exact ⟨Nat.mul_mod_left a 1024, by omega⟩

theorem Mapper.applyBankOp_inv (pk ck : Nat) (hpk : 0 < pk) (hck : 0 < ck)
    (op : BankOp) (m : MapperBanks)
    (hp : m.prgLen = 0x8000 * pk) (hc : m.chrLen = 0x2000 * ck)
    (hinv : Mapper.banksInv m) :
    Mapper.banksInv (Mapper.applyBankOp op m) := by
  obtain ⟨hprg, hchr⟩ := hinv
  have hprg : ∀ i, i < 4 → m.prgPagesMap i % 0x2000 = 0 ∧
      m.prgPagesMap i + 0x2000 ≤ 0x8000 * pk := by rw [← hp]; exact hprg
  have hchr : ∀ i, i < 8 → m.chrPagesMap i % 0x400 = 0 ∧
      m.chrPagesMap i + 0x400 ≤ 0x2000 * ck := by rw [← hc]; exact hchr
  have hpc : Mapper.prgBankCount m = 4 * pk := by
    unfold Mapper.prgBankCount
    rw [hp, Nat.shiftRight_eq_div_pow]
    have h13 : (2 : Nat) ^ 13 = 8192 := by norm_num
    rw [h13]; omega
  have hcc : Mapper.chrBankCount m = 8 * ck := by
    unfold Mapper.chrBankCount
    rw [hc, Nat.shiftRight_eq_div_pow]
    have h10 : (2 : Nat) ^ 10 = 1024 := by norm_num
    rw [h10]; omega
  cases op with
  | p8 b slot =>
    simp only [Mapper.applyBankOp, Mapper.switch8kPrgBank, hpc]
    rw [if_neg (by omega : ¬(4 * pk = 0))]
    refine ⟨?_, ?_⟩
    · show ∀ i, i < 4 → _
      rw [show ({ m with prgPagesMap := u32store 4 m.prgPagesMap slot ((b % (4 * pk)) <<< 13) } : MapperBanks).prgLen = 0x8000 * pk from hp]
      exact Mapper.prg_store_inv _ _ _ _ hprg
        (Mapper.prg_entry_ok pk _ (by have := Nat.mod_lt b (by omega : 0 < 4 * pk); omega))
    · show ∀ i, i < 8 → _
      rw [show ({ m with prgPagesMap := u32store 4 m.prgPagesMap slot ((b % (4 * pk)) <<< 13) } : MapperBanks).chrLen = 0x2000 * ck from hc]
      exact hchr
  | p16 b lowSlot =>
    simp only [Mapper.applyBankOp, Mapper.switch16kPrgBank, hpc]
    have hg : (4 * pk) >>> 1 > 0 := by
      rw [Nat.shiftRight_eq_div_pow]
      have : (2 : Nat) ^ 1 = 2 := by norm_num
      rw [this]; omega
    rw [if_pos hg]
    have hact : (b <<< 1) % (4 * pk) = 2 * (b % (2 * pk)) := by
      rw [Nat.shiftLeft_eq]
      have : (2 : Nat) ^ 1 = 2 := by norm_num
      rw [this, Nat.mul_comm b 2, show 4 * pk = 2 * (2 * pk) by ring, Nat.mul_mod_mul_left]
    have hblt : b % (2 * pk) < 2 * pk := Nat.mod_lt b (by omega)
    refine ⟨?_, ?_⟩
    · show ∀ i, i < 4 → _
      simp only [hact, hp]
      refine Mapper.prg_store_inv _ _ _ _
        (Mapper.prg_store_inv _ _ _ _ hprg (Mapper.prg_entry_ok pk _ (by omega)))
        (Mapper.prg_entry_ok pk _ (by omega))
    · show ∀ i, i < 8 → _
      simp only [hc]
      exact hchr
  | p32 b =>
    simp only [Mapper.applyBankOp, Mapper.switch32kPrgBank, hpc]
    by_cases hg : (4 * pk) >>> 2 > 0
    · rw [if_pos hg]
      have hact : (b <<< 2) % (4 * pk) = 4 * (b % pk) := by
        rw [Nat.shiftLeft_eq]
        have : (2 : Nat) ^ 2 = 4 := by norm_num
        rw [this, Nat.mul_comm b 4, Nat.mul_mod_mul_left]
      have hblt : b % pk < pk := Nat.mod_lt b hpk
      refine ⟨?_, ?_⟩
      · show ∀ i, i < 4 → _
        simp only [hact, hp]
        refine Mapper.prg_store_inv _ _ _ _
          (Mapper.prg_store_inv _ _ _ _
            (Mapper.prg_store_inv _ _ _ _
              (Mapper.prg_store_inv _ _ _ _ hprg (Mapper.prg_entry_ok pk _ (by omega)))
              (Mapper.prg_entry_ok pk _ (by omega)))
            (Mapper.prg_entry_ok pk _ (by omega)))
          (Mapper.prg_entry_ok pk _ (by omega))
      · show ∀ i, i < 8 → _
        simp only [hc]
        exact hchr
    · rw [if_neg hg]
      exact ⟨fun i hi => ⟨(hprg i hi).1, by rw [hp]; exact (hprg i hi).2⟩,
             fun i hi => ⟨(hchr i hi).1, by rw [hc]; exact (hchr i hi).2⟩⟩
  | c1 b slot =>
    simp only [Mapper.applyBankOp, Mapper.switch1kChrBank, hcc]
    rw [if_neg (by omega : ¬(8 * ck = 0))]
    refine ⟨?_, ?_⟩
    · show ∀ i, i < 4 → _
      simp only [hp]
      exact hprg
    · show ∀ i, i < 8 → _
      simp only [hc]
      exact Mapper.chr_store_inv _ _ _ _ hchr
        (Mapper.chr_entry_ok ck _ (by have := Nat.mod_lt b (by omega : 0 < 8 * ck); omega))
  | c2 b slot =>
    simp only [Mapper.applyBankOp, Mapper.switch2kChrBank, hcc]
    have hg : (8 * ck) >>> 1 > 0 := by
      rw [Nat.shiftRight_eq_div_pow]
      have : (2 : Nat) ^ 1 = 2 := by norm_num
      rw [this]; omega
    rw [if_pos hg]
    have hact : (b <<< 1) % (8 * ck) = 2 * (b % (4 * ck)) := by
      rw [Nat.shiftLeft_eq]
      have : (2 : Nat) ^ 1 = 2 := by norm_num
      rw [this, Nat.mul_comm b 2, show 8 * ck = 2 * (4 * ck) by ring, Nat.mul_mod_mul_left]
    have hblt : b % (4 * ck) < 4 * ck := Nat.mod_lt b (by omega)
    refine ⟨?_, ?_⟩
    · show ∀ i, i < 4 → _
      simp only [hp]
      exact hprg
    · show ∀ i, i < 8 → _
      simp only [hact, hc]
      refine Mapper.chr_store_inv _ _ _ _
        (Mapper.chr_store_inv _ _ _ _ hchr (Mapper.chr_entry_ok ck _ (by omega)))
        (Mapper.chr_entry_ok ck _ (by omega))
  | c4 b lowSlot =>
    simp only [Mapper.applyBankOp, Mapper.switch4kChrBank, hcc]
    have hg : (8 * ck) >>> 2 > 0 := by
      rw [Nat.shiftRight_eq_div_pow]
      have : (2 : Nat) ^ 2 = 4 := by norm_num
      rw [this]; omega
    rw [if_pos hg]
    have hact : (b <<< 2) % (8 * ck) = 4 * (b % (2 * ck)) := by
      rw [Nat.shiftLeft_eq]
      have : (2 : Nat) ^ 2 = 4 := by norm_num
      rw [this, Nat.mul_comm b 4, show 8 * ck = 4 * (2 * ck) by ring, Nat.mul_mod_mul_left]
    have hblt : b % (2 * ck) < 2 * ck := Nat.mod_lt b (by omega)
    refine ⟨?_, ?_⟩
    · show ∀ i, i < 4 → _
      simp only [hp]
      exact hprg
    · show ∀ i, i < 8 → _
      simp only [hact, hc]
      refine Mapper.chr_store_inv _ _ _ _
        (Mapper.chr_store_inv _ _ _ _
          (Mapper.chr_store_inv _ _ _ _
            (Mapper.chr_store_inv _ _ _ _ hchr (Mapper.chr_entry_ok ck _ (by omega)))
            (Mapper.chr_entry_ok ck _ (by omega)))
          (Mapper.chr_entry_ok ck _ (by omega)))
        (Mapper.chr_entry_ok ck _ (by omega))
  | c8 b =>
    simp only [Mapper.applyBankOp, Mapper.switch8kChrBank, hcc]
    have hg : (8 * ck) >>> 3 > 0 := by
      rw [Nat.shiftRight_eq_div_pow]
      have : (2 : Nat) ^ 3 = 8 := by norm_num
      rw [this]; omega
    rw [if_pos hg]
    have hact : (b <<< 3) % (8 * ck) = 8 * (b % ck) := by
      rw [Nat.shiftLeft_eq]
      have : (2 : Nat) ^ 3 = 8 := by norm_num
      rw [this, Nat.mul_comm b 8, Nat.mul_mod_mul_left]
    have hblt : b % ck < ck := Nat.mod_lt b hck
    refine ⟨?_, ?_⟩
    · show ∀ i, i < 4 → _
      simp only [hp]
      exact hprg
    · show ∀ i, i < 8 → _
      simp only [hact, hc]
      refine Mapper.chr_store_inv _ _ _ _
        (Mapper.chr_store_inv _ _ _ _
          (Mapper.chr_store_inv _ _ _ _
            (Mapper.chr_store_inv _ _ _ _
              (Mapper.chr_store_inv _ _ _ _
                (Mapper.chr_store_inv _ _ _ _
                  (Mapper.chr_store_inv _ _ _ _
                    (Mapper.chr_store_inv _ _ _ _ hchr (Mapper.chr_entry_ok ck _ (by omega)))
                    (Mapper.chr_entry_ok ck _ (by omega)))
                  (Mapper.chr_entry_ok ck _ (by omega)))
                (Mapper.chr_entry_ok ck _ (by omega)))
              (Mapper.chr_entry_ok ck _ (by omega)))
            (Mapper.chr_entry_ok ck _ (by omega)))
          (Mapper.chr_entry_ok ck _ (by omega)))
        (Mapper.chr_entry_ok ck _ (by omega))

/-- Claim C9 amended: after any sequence of base-mapper bank-switch
operations with arbitrary bank-id and slot arguments, every entry of the
4-slot PRG map is a multiple of 0x2000 with its whole slot inside the PRG
memory, and every entry of the 8-slot CHR map is a multiple of 0x400 with
its whole slot inside the CHR memory, provided the PRG memory is a
non-empty multiple of 32 KiB and the CHR memory a non-empty multiple of
8 KiB (the widths of the widest switch operations; the counterexample
shows both restrictions necessary). -/
theorem bank_inv_c9 :
    ∀ pk ck : Nat, 0 < pk → 0 < ck → ∀ ops : List BankOp,
      Mapper.banksInv
        (Mapper.applyBankOps ops (Mapper.initBanks (0x8000 * pk) (0x2000 * ck))) := by
  intro pk ck hpk hck ops
  suffices h : ∀ m : MapperBanks, m.prgLen = 0x8000 * pk → m.chrLen = 0x2000 * ck →
      Mapper.banksInv m → Mapper.banksInv (Mapper.applyBankOps ops m) by
    refine h _ rfl rfl ⟨?_, ?_⟩
    · intro i hi
      refine ⟨?_, ?_⟩
      · simp [Mapper.initBanks]
      · simp [Mapper.initBanks]; omega
    · intro i hi
      have hcbc : (0x2000 * ck) >>> 10 = 8 * ck := by
        rw [Nat.shiftRight_eq_div_pow]
        have h10 : (2 : Nat) ^ 10 = 1024 := by norm_num
        rw [h10]; omega
      have hmod : i % (8 * ck) + 1 ≤ 8 * ck := by
        have := Nat.mod_lt i (show 0 < 8 * ck by omega)
        omega
      have hok := Mapper.chr_entry_ok ck (i % (8 * ck)) hmod
      show (Mapper.initBanks (0x8000 * pk) (0x2000 * ck)).chrPagesMap i % 0x400 = 0 ∧ _
      simp only [Mapper.initBanks, hcbc]
      rw [if_pos (by omega)]
      exact hok
  induction ops with
  | nil =>
    intro m _ _ h
    simpa [Mapper.applyBankOps] using h
  | cons op rest ih =>
    intro m hp hc h
    have hstep := Mapper.applyBankOp_inv pk ck hpk hck op m hp hc h
    have hlens := Mapper.applyBankOp_lens op m
    have hrest := ih (Mapper.applyBankOp op m) (by rw [hlens.1, hp]) (by rw [hlens.2, hc]) hstep
    simpa [Mapper.applyBankOps] using hrest

/-- Witness for claim C9 at a 32 KiB PRG, 8 KiB CHR mapper and one
8 KiB PRG switch. -/
theorem bank_inv_c9_witness :
    Mapper.banksInv
      (Mapper.applyBankOps [BankOp.p8 5 0] (Mapper.initBanks (0x8000 * 1) (0x2000 * 1))) :=
  bank_inv_c9 1 1 (by decide) (by decide) [BankOp.p8 5 0]

/-! ## Claim C8 — MMC1 serial register -/

theorem Mapper001.updateMirroring_serial (m : Mmc1) :
    (Mapper001.updateMirroring m).shiftRegister = m.shiftRegister ∧
    (Mapper001.updateMirroring m).writeCount = m.writeCount ∧
    (Mapper001.updateMirroring m).lastWriteInstruction = m.lastWriteInstruction ∧
    (Mapper001.updateMirroring m).controlRegister = m.controlRegister :=
  ⟨rfl, rfl, rfl, rfl⟩

theorem Mapper001.updateBankOffsets_serial (m : Mmc1) :
    (Mapper001.updateBankOffsets m).shiftRegister = m.shiftRegister ∧
    (Mapper001.updateBankOffsets m).writeCount = m.writeCount ∧
    (Mapper001.updateBankOffsets m).lastWriteInstruction = m.lastWriteInstruction ∧
    (Mapper001.updateBankOffsets m).controlRegister = m.controlRegister :=
  ⟨rfl, rfl, rfl, rfl⟩

theorem Mapper001.applyRegister_serial (r v : Nat) (m : Mmc1) :
    (Mapper001.applyRegister r v m).shiftRegister = m.shiftRegister ∧
    (Mapper001.applyRegister r v m).writeCount = m.writeCount ∧
    (Mapper001.applyRegister r v m).lastWriteInstruction = m.lastWriteInstruction := by
  unfold Mapper001.applyRegister
  split_ifs <;>
    simp [Mapper001.updateBankOffsets_serial, Mapper001.updateMirroring_serial]

theorem nat_or_twelve_prg_mode (c : Nat) : ((c ||| 0x0C) >>> 2) &&& 3 = 3 := by
  apply Nat.eq_of_testBit_eq
  intro i
  have h2 : Nat.testBit 12 2 = true := by decide
  have h3 : Nat.testBit 12 3 = true := by decide
  match i with
  | 0 => simp [Nat.testBit_and, Nat.testBit_shiftRight, Nat.testBit_or, h2]
  | 1 => simp [Nat.testBit_and, Nat.testBit_shiftRight, Nat.testBit_or, h3]
  | (j + 2) =>
    simp only [Nat.testBit_and, Nat.testBit_shiftRight, Nat.testBit_or]
    have hb : Nat.testBit 3 (j + 2) = false :=
      Nat.testBit_lt_two_pow (by
        calc (3 : Nat) < 2 ^ 2 := by norm_num
        _ ≤ 2 ^ (j + 2) := Nat.pow_le_pow_right (by norm_num) (by omega))
    simp [hb]

/-- One accepted MMC1 register write with bit 7 clear that is not the
fifth of a sequence: it shifts the low data bit into the serial register
and bumps the write counter. -/
theorem Mapper001.acceptedShift (inst : Int) (address data : Nat) (m : Mmc1)
    (h1 : inst ≠ m.lastWriteInstruction) (h2 : data &&& 0x80 = 0)
    (h3 : m.writeCount + 1 ≠ 5) :
    Mapper001.writeRegister inst address data m =
      { m with
        shiftRegister := ((m.shiftRegister >>> 1) ||| ((data &&& 1) <<< 4)) &&& 0x1F,
        writeCount := m.writeCount + 1,
        lastWriteInstruction := inst } := by
  unfold Mapper001.writeRegister
  rw [if_neg h1]
  dsimp only
  rw [if_neg (by simp [h2])]
  rw [if_neg h3]

/-- The fifth accepted MMC1 register write applies the register selected
by address bits 13-14 and rearms the shifter. -/
theorem Mapper001.fifthWrite (inst : Int) (address data : Nat) (m : Mmc1)
    (h1 : inst ≠ m.lastWriteInstruction) (h2 : data &&& 0x80 = 0)
    (h3 : m.writeCount + 1 = 5) :
    Mapper001.writeRegister inst address data m =
      { Mapper001.applyRegister ((address >>> 13) &&& 0x03)
          (((m.shiftRegister >>> 1) ||| ((data &&& 1) <<< 4)) &&& 0x1F)
          { m with
            shiftRegister := ((m.shiftRegister >>> 1) ||| ((data &&& 1) <<< 4)) &&& 0x1F,
            writeCount := m.writeCount + 1,
            lastWriteInstruction := inst } with
        shiftRegister := 0x10, writeCount := 0 } := by
  unfold Mapper001.writeRegister
  rw [if_neg h1]
  dsimp only
  rw [if_neg (by simp [h2])]
  rw [if_pos h3]

/-- Every MMC1 register write that is not rejected records the current
instruction count. -/
theorem Mapper001.writeRegister_lastWrite (inst : Int) (address data : Nat) (m : Mmc1)
    (h1 : inst ≠ m.lastWriteInstruction) :
    (Mapper001.writeRegister inst address data m).lastWriteInstruction = inst := by
  unfold Mapper001.writeRegister
  rw [if_neg h1]
  dsimp only
  split_ifs <;>
    simp [Mapper001.updateMirroring_serial, Mapper001.updateBankOffsets_serial,
      Mapper001.applyRegister_serial]

theorem Mapper001.shift_chain (b1 b2 b3 b4 b5 : Nat)
    (h1 : b1 ≤ 1) (h2 : b2 ≤ 1) (h3 : b3 ≤ 1) (h4 : b4 ≤ 1) (h5 : b5 ≤ 1) :
    ((((((((((((((0x10 >>> 1) ||| (b1 <<< 4)) &&& 0x1F) >>> 1) ||| (b2 <<< 4)) &&& 0x1F) >>> 1) ||| (b3 <<< 4)) &&& 0x1F) >>> 1) ||| (b4 <<< 4)) &&& 0x1F) >>> 1) ||| (b5 <<< 4)) &&& 0x1F =
      (((b1 ||| (b2 <<< 1)) ||| (b3 <<< 2)) ||| (b4 <<< 3)) ||| (b5 <<< 4) := by
  interval_cases b1 <;> interval_cases b2 <;> interval_cases b3 <;>
    interval_cases b4 <;> interval_cases b5 <;> decide

/-- Claim C8: the MMC1 serial port.  (a) An accepted register write with
bit 7 set resets the shift register to its armed value 0x10 and the write
counter to 0 and forces PRG mode 3 (control OR 0x0C).  (b) Starting from
the armed shifter, five accepted writes with bit 7 clear assemble their
low data bits, least significant first, and apply the register selected
by bits 13-14 of the fifth address to that 5-bit value, rearming the
shifter.  (c) Of two writes issued within the same CPU instruction (equal
instruction counts), only the first reaches the serial register: the
second leaves the mapper state exactly as it was. -/
theorem mmc1_serial_c8 :
    (∀ (m : Mmc1) (inst : Int) (address data : Nat),
      inst ≠ m.lastWriteInstruction → data &&& 0x80 ≠ 0 →
        (Mapper001.writeRegister inst address data m).shiftRegister = 0x10 ∧
        (Mapper001.writeRegister inst address data m).writeCount = 0 ∧
        (Mapper001.writeRegister inst address data m).controlRegister =
          m.controlRegister ||| 0x0C ∧
        ((Mapper001.writeRegister inst address data m).controlRegister >>> 2) &&& 0x03 = 3) ∧
    (∀ (m : Mmc1) (i1 i2 i3 i4 i5 : Int) (a1 a2 a3 a4 a5 d1 d2 d3 d4 d5 : Nat),
      m.shiftRegister = 0x10 → m.writeCount = 0 →
      i1 ≠ m.lastWriteInstruction → i2 ≠ i1 → i3 ≠ i2 → i4 ≠ i3 → i5 ≠ i4 →
      d1 &&& 0x80 = 0 → d2 &&& 0x80 = 0 → d3 &&& 0x80 = 0 →
      d4 &&& 0x80 = 0 → d5 &&& 0x80 = 0 →
      Mapper001.writeRegister i5 a5 d5 (Mapper001.writeRegister i4 a4 d4
        (Mapper001.writeRegister i3 a3 d3 (Mapper001.writeRegister i2 a2 d2
          (Mapper001.writeRegister i1 a1 d1 m)))) =
        { Mapper001.applyRegister ((a5 >>> 13) &&& 0x03)
            ((((d1 &&& 1) ||| ((d2 &&& 1) <<< 1)) ||| ((d3 &&& 1) <<< 2)) |||
              ((d4 &&& 1) <<< 3) ||| ((d5 &&& 1) <<< 4))
            { m with
              shiftRegister := (((d1 &&& 1) ||| ((d2 &&& 1) <<< 1)) |||
                ((d3 &&& 1) <<< 2)) ||| ((d4 &&& 1) <<< 3) ||| ((d5 &&& 1) <<< 4),
              writeCount := 5, lastWriteInstruction := i5 } with
          shiftRegister := 0x10, writeCount := 0 }) ∧
    (∀ (m : Mmc1) (inst : Int) (a1 d1 a2 d2 : Nat),
      inst ≠ m.lastWriteInstruction →
        Mapper001.writeRegister inst a2 d2 (Mapper001.writeRegister inst a1 d1 m) =
          Mapper001.writeRegister inst a1 d1 m) := by
  refine ⟨?_, ?_, ?_⟩
  · intro m inst address data h1 h7
    unfold Mapper001.writeRegister
    rw [if_neg h1]
    dsimp only
    rw [if_pos h7]
    simp only [Mapper001.updateMirroring_serial, Mapper001.updateBankOffsets_serial]
    refine ⟨trivial, trivial, trivial, ?_⟩
    exact nat_or_twelve_prg_mode m.controlRegister
  · intro m i1 i2 i3 i4 i5 a1 a2 a3 a4 a5 d1 d2 d3 d4 d5 hsr hwc h1 h2 h3 h4 h5
      hb1 hb2 hb3 hb4 hb5
    rw [Mapper001.acceptedShift i1 a1 d1 m h1 hb1 (by omega)]
    rw [Mapper001.acceptedShift i2 a2 d2 _ h2 hb2 (by dsimp only; omega)]
    rw [Mapper001.acceptedShift i3 a3 d3 _ h3 hb3 (by dsimp only; omega)]
    rw [Mapper001.acceptedShift i4 a4 d4 _ h4 hb4 (by dsimp only; omega)]
    rw [Mapper001.fifthWrite i5 a5 d5 _ h5 hb5 (by dsimp only; rw [hwc])]
    dsimp only
    rw [hsr, hwc]
    rw [Mapper001.shift_chain (d1 &&& 1) (d2 &&& 1) (d3 &&& 1) (d4 &&& 1) (d5 &&& 1)
      Nat.and_le_right Nat.and_le_right Nat.and_le_right Nat.and_le_right Nat.and_le_right]
  · intro m inst a1 d1 a2 d2 h1
    have hlw := Mapper001.writeRegister_lastWrite inst a1 d1 m h1
    have hrej : ∀ (a d : Nat) (m2 : Mmc1), inst = m2.lastWriteInstruction →
        Mapper001.writeRegister inst a d m2 = m2 := by
      intro a d m2 he
      unfold Mapper001.writeRegister
      rw [if_pos he]
    exact hrej a2 d2 _ hlw.symm

/-- Witness for claim C8 on a concrete MMC1 state: a bit-7 write forces
PRG mode 3; five accepted writes of low bit 1 to $E000 load PRG register
3 with 0x0F; a second same-instruction write is ignored. -/
theorem mmc1_serial_c8_witness :
    ((Mapper001.writeRegister 7 0x8000 0x80
        { shiftRegister := 0x10, writeCount := 0, lastWriteInstruction := -1,
          controlRegister := 0x0C, chrBank0 := 0, chrBank1 := 0, prgBank := 0,
          wramDisable := false, prgBankCount := 2, chrSize := 0x2000,
          usingChrRam := false, prgBank0Offset := 0, prgBank1Offset := 0,
          chrBank0Offset := 0, chrBank1Offset := 0, chrPagesMap := fun _ => 0,
          mirroring := 0 }).shiftRegister = 0x10 ∧
      ((Mapper001.writeRegister 7 0x8000 0x80
        { shiftRegister := 0x10, writeCount := 0, lastWriteInstruction := -1,
          controlRegister := 0x0C, chrBank0 := 0, chrBank1 := 0, prgBank := 0,
          wramDisable := false, prgBankCount := 2, chrSize := 0x2000,
          usingChrRam := false, prgBank0Offset := 0, prgBank1Offset := 0,
          chrBank0Offset := 0, chrBank1Offset := 0, chrPagesMap := fun _ => 0,
          mirroring := 0 }).controlRegister >>> 2) &&& 0x03 = 3) ∧
    (Mapper001.writeRegister 5 0xE000 1 (Mapper001.writeRegister 4 0xE000 1
      (Mapper001.writeRegister 3 0xE000 1 (Mapper001.writeRegister 2 0xE000 1
        (Mapper001.writeRegister 1 0xE000 1
          { shiftRegister := 0x10, writeCount := 0, lastWriteInstruction := -1,
            controlRegister := 0x0C, chrBank0 := 0, chrBank1 := 0, prgBank := 0,
            wramDisable := false, prgBankCount := 2, chrSize := 0x2000,
            usingChrRam := false, prgBank0Offset := 0, prgBank1Offset := 0,
            chrBank0Offset := 0, chrBank1Offset := 0, chrPagesMap := fun _ => 0,
            mirroring := 0 }))))).prgBank = 0x0F ∧
    Mapper001.writeRegister 9 0xA000 1 (Mapper001.writeRegister 9 0x8000 1
      { shiftRegister := 0x10, writeCount := 0, lastWriteInstruction := -1,
        controlRegister := 0x0C, chrBank0 := 0, chrBank1 := 0, prgBank := 0,
        wramDisable := false, prgBankCount := 2, chrSize := 0x2000,
        usingChrRam := false, prgBank0Offset := 0, prgBank1Offset := 0,
        chrBank0Offset := 0, chrBank1Offset := 0, chrPagesMap := fun _ => 0,
        mirroring := 0 }) =
      Mapper001.writeRegister 9 0x8000 1
        { shiftRegister := 0x10, writeCount := 0, lastWriteInstruction := -1,
          controlRegister := 0x0C, chrBank0 := 0, chrBank1 := 0, prgBank := 0,
          wramDisable := false, prgBankCount := 2, chrSize := 0x2000,
          usingChrRam := false, prgBank0Offset := 0, prgBank1Offset := 0,
          chrBank0Offset := 0, chrBank1Offset := 0, chrPagesMap := fun _ => 0,
          mirroring := 0 } := by
  refine ⟨?_, ?_, ?_⟩
  · have h := mmc1_serial_c8.1
      { shiftRegister := 0x10, writeCount := 0, lastWriteInstruction := -1,
        controlRegister := 0x0C, chrBank0 := 0, chrBank1 := 0, prgBank := 0,
        wramDisable := false, prgBankCount := 2, chrSize := 0x2000,
        usingChrRam := false, prgBank0Offset := 0, prgBank1Offset := 0,
        chrBank0Offset := 0, chrBank1Offset := 0, chrPagesMap := fun _ => 0,
        mirroring := 0 } 7 0x8000 0x80 (by decide) (by decide)
    exact ⟨h.1, h.2.2.2⟩
  · have h := mmc1_serial_c8.2.1
      { shiftRegister := 0x10, writeCount := 0, lastWriteInstruction := -1,
        controlRegister := 0x0C, chrBank0 := 0, chrBank1 := 0, prgBank := 0,
        wramDisable := false, prgBankCount := 2, chrSize := 0x2000,
        usingChrRam := false, prgBank0Offset := 0, prgBank1Offset := 0,
        chrBank0Offset := 0, chrBank1Offset := 0, chrPagesMap := fun _ => 0,
        mirroring := 0 } 1 2 3 4 5 0xE000 0xE000 0xE000 0xE000 0xE000 1 1 1 1 1
      rfl rfl (by decide) (by decide) (by decide) (by decide) (by decide)
      (by decide) (by decide) (by decide) (by decide) (by decide)
    rw [h]
    rfl
  · exact mmc1_serial_c8.2.2
      { shiftRegister := 0x10, writeCount := 0, lastWriteInstruction := -1,
        controlRegister := 0x0C, chrBank0 := 0, chrBank1 := 0, prgBank := 0,
        wramDisable := false, prgBankCount := 2, chrSize := 0x2000,
        usingChrRam := false, prgBank0Offset := 0, prgBank1Offset := 0,
        chrBank0Offset := 0, chrBank1Offset := 0, chrPagesMap := fun _ => 0,
        mirroring := 0 } 9 0x8000 1 0xA000 1 (by decide)

/-! ## Claim C6 — noise LFSR periods

The 32767-step orbit is evaluated in chunks of 512 steps
(`Function.iterate_add_apply`), since a single kernel reduction of the
full iterate nests too deeply. -/

theorem lfsr0_cum1 : (NoiseChannel.lfsrStep false)^[512 * 1] 1 = 8320 := by decide

theorem lfsr0_cum2 : (NoiseChannel.lfsrStep false)^[512 * 2] 1 = 26624 := by
  rw [show 512 * 2 = 512 + 512 * 1 from rfl, Function.iterate_add_apply, lfsr0_cum1]
  decide

theorem lfsr0_cum3 : (NoiseChannel.lfsrStep false)^[512 * 3] 1 = 6760 := by
  rw [show 512 * 3 = 512 + 512 * 2 from rfl, Function.iterate_add_apply, lfsr0_cum2]
  decide

theorem lfsr0_cum4 : (NoiseChannel.lfsrStep false)^[512 * 4] 1 = 10368 := by
  rw [show 512 * 4 = 512 + 512 * 3 from rfl, Function.iterate_add_apply, lfsr0_cum3]
  decide

theorem lfsr0_cum5 : (NoiseChannel.lfsrStep false)^[512 * 5] 1 = 27144 := by
  rw [show 512 * 5 = 512 + 512 * 4 from rfl, Function.iterate_add_apply, lfsr0_cum4]
  decide

theorem lfsr0_cum6 : (NoiseChannel.lfsrStep false)^[512 * 6] 1 = 7400 := by
  rw [show 512 * 6 = 512 + 512 * 5 from rfl, Function.iterate_add_apply, lfsr0_cum5]
  decide

theorem lfsr0_cum7 : (NoiseChannel.lfsrStep false)^[512 * 7] 1 = 18726 := by
  rw [show 512 * 7 = 512 + 512 * 6 from rfl, Function.iterate_add_apply, lfsr0_cum6]
  decide

theorem lfsr0_cum8 : (NoiseChannel.lfsrStep false)^[512 * 8] 1 = 26752 := by
  rw [show 512 * 8 = 512 + 512 * 7 from rfl, Function.iterate_add_apply, lfsr0_cum7]
  decide

theorem lfsr0_cum9 : (NoiseChannel.lfsrStep false)^[512 * 9] 1 = 31304 := by
  rw [show 512 * 9 = 512 + 512 * 8 from rfl, Function.iterate_add_apply, lfsr0_cum8]
  decide

theorem lfsr0_cum10 : (NoiseChannel.lfsrStep false)^[512 * 10] 1 = 10472 := by
  rw [show 512 * 10 = 512 + 512 * 9 from rfl, Function.iterate_add_apply, lfsr0_cum9]
  decide

theorem lfsr0_cum11 : (NoiseChannel.lfsrStep false)^[512 * 11] 1 = 17426 := by
  rw [show 512 * 11 = 512 + 512 * 10 from rfl, Function.iterate_add_apply, lfsr0_cum10]
  decide

theorem lfsr0_cum12 : (NoiseChannel.lfsrStep false)^[512 * 12] 1 = 31936 := by
  rw [show 512 * 12 = 512 + 512 * 11 from rfl, Function.iterate_add_apply, lfsr0_cum11]
  decide

theorem lfsr0_cum13 : (NoiseChannel.lfsrStep false)^[512 * 13] 1 = 20300 := by
  rw [show 512 * 13 = 512 + 512 * 12 from rfl, Function.iterate_add_apply, lfsr0_cum12]
  decide

theorem lfsr0_cum14 : (NoiseChannel.lfsrStep false)^[512 * 14] 1 = 9884 := by
  rw [show 512 * 14 = 512 + 512 * 13 from rfl, Function.iterate_add_apply, lfsr0_cum13]
  decide

theorem lfsr0_cum15 : (NoiseChannel.lfsrStep false)^[512 * 15] 1 = 8321 := by
  rw [show 512 * 15 = 512 + 512 * 14 from rfl, Function.iterate_add_apply, lfsr0_cum14]
  decide

theorem lfsr0_cum16 : (NoiseChannel.lfsrStep false)^[512 * 16] 1 = 18560 := by
  rw [show 512 * 16 = 512 + 512 * 15 from rfl, Function.iterate_add_apply, lfsr0_cum15]
  decide

theorem lfsr0_cum17 : (NoiseChannel.lfsrStep false)^[512 * 17] 1 = 29288 := by
  rw [show 512 * 17 = 512 + 512 * 16 from rfl, Function.iterate_add_apply, lfsr0_cum16]
  decide

theorem lfsr0_cum18 : (NoiseChannel.lfsrStep false)^[512 * 18] 1 = 13032 := by
  rw [show 512 * 18 = 512 + 512 * 17 from rfl, Function.iterate_add_apply, lfsr0_cum17]
  decide

theorem lfsr0_cum19 : (NoiseChannel.lfsrStep false)^[512 * 19] 1 = 17032 := by
  rw [show 512 * 19 = 512 + 512 * 18 from rfl, Function.iterate_add_apply, lfsr0_cum18]
  decide

theorem lfsr0_cum20 : (NoiseChannel.lfsrStep false)^[512 * 20] 1 = 30432 := by
  rw [show 512 * 20 = 512 + 512 * 19 from rfl, Function.iterate_add_apply, lfsr0_cum19]
  decide

theorem lfsr0_cum21 : (NoiseChannel.lfsrStep false)^[512 * 21] 1 = 21966 := by
  rw [show 512 * 21 = 512 + 512 * 20 from rfl, Function.iterate_add_apply, lfsr0_cum20]
  decide

theorem lfsr0_cum22 : (NoiseChannel.lfsrStep false)^[512 * 22] 1 = 8614 := by
  rw [show 512 * 22 = 512 + 512 * 21 from rfl, Function.iterate_add_apply, lfsr0_cum21]
  decide

theorem lfsr0_cum23 : (NoiseChannel.lfsrStep false)^[512 * 23] 1 = 4808 := by
  rw [show 512 * 23 = 512 + 512 * 22 from rfl, Function.iterate_add_apply, lfsr0_cum22]
  decide

theorem lfsr0_cum24 : (NoiseChannel.lfsrStep false)^[512 * 24] 1 = 21152 := by
  rw [show 512 * 24 = 512 + 512 * 23 from rfl, Function.iterate_add_apply, lfsr0_cum23]
  decide

theorem lfsr0_cum25 : (NoiseChannel.lfsrStep false)^[512 * 25] 1 = 27898 := by
  rw [show 512 * 25 = 512 + 512 * 24 from rfl, Function.iterate_add_apply, lfsr0_cum24]
  decide

theorem lfsr0_cum26 : (NoiseChannel.lfsrStep false)^[512 * 26] 1 = 14546 := by
  rw [show 512 * 26 = 512 + 512 * 25 from rfl, Function.iterate_add_apply, lfsr0_cum25]
  decide

theorem lfsr0_cum27 : (NoiseChannel.lfsrStep false)^[512 * 27] 1 = 13196 := by
  rw [show 512 * 27 = 512 + 512 * 26 from rfl, Function.iterate_add_apply, lfsr0_cum26]
  decide

theorem lfsr0_cum28 : (NoiseChannel.lfsrStep false)^[512 * 28] 1 = 27088 := by
  rw [show 512 * 28 = 512 + 512 * 27 from rfl, Function.iterate_add_apply, lfsr0_cum27]
  decide

theorem lfsr0_cum29 : (NoiseChannel.lfsrStep false)^[512 * 29] 1 = 1565 := by
  rw [show 512 * 29 = 512 + 512 * 28 from rfl, Function.iterate_add_apply, lfsr0_cum28]
  decide

theorem lfsr0_cum30 : (NoiseChannel.lfsrStep false)^[512 * 30] 1 = 26625 := by
  rw [show 512 * 30 = 512 + 512 * 29 from rfl, Function.iterate_add_apply, lfsr0_cum29]
  decide

theorem lfsr0_cum31 : (NoiseChannel.lfsrStep false)^[512 * 31] 1 = 15080 := by
  rw [show 512 * 31 = 512 + 512 * 30 from rfl, Function.iterate_add_apply, lfsr0_cum30]
  decide

theorem lfsr0_cum32 : (NoiseChannel.lfsrStep false)^[512 * 32] 1 = 16512 := by
  rw [show 512 * 32 = 512 + 512 * 31 from rfl, Function.iterate_add_apply, lfsr0_cum31]
  decide

theorem lfsr0_cum33 : (NoiseChannel.lfsrStep false)^[512 * 33] 1 = 28768 := by
  rw [show 512 * 33 = 512 + 512 * 32 from rfl, Function.iterate_add_apply, lfsr0_cum32]
  decide

theorem lfsr0_cum34 : (NoiseChannel.lfsrStep false)^[512 * 34] 1 = 13416 := by
  rw [show 512 * 34 = 512 + 512 * 33 from rfl, Function.iterate_add_apply, lfsr0_cum33]
  decide

theorem lfsr0_cum35 : (NoiseChannel.lfsrStep false)^[512 * 35] 1 = 9006 := by
  rw [show 512 * 35 = 512 + 512 * 34 from rfl, Function.iterate_add_apply, lfsr0_cum34]
  decide

theorem lfsr0_cum36 : (NoiseChannel.lfsrStep false)^[512 * 36] 1 = 29800 := by
  rw [show 512 * 36 = 512 + 512 * 35 from rfl, Function.iterate_add_apply, lfsr0_cum35]
  decide

theorem lfsr0_cum37 : (NoiseChannel.lfsrStep false)^[512 * 37] 1 = 13166 := by
  rw [show 512 * 37 = 512 + 512 * 36 from rfl, Function.iterate_add_apply, lfsr0_cum36]
  decide

theorem lfsr0_cum38 : (NoiseChannel.lfsrStep false)^[512 * 38] 1 = 16488 := by
  rw [show 512 * 38 = 512 + 512 * 37 from rfl, Function.iterate_add_apply, lfsr0_cum37]
  decide

theorem lfsr0_cum39 : (NoiseChannel.lfsrStep false)^[512 * 39] 1 = 15962 := by
  rw [show 512 * 39 = 512 + 512 * 38 from rfl, Function.iterate_add_apply, lfsr0_cum38]
  decide

theorem lfsr0_cum40 : (NoiseChannel.lfsrStep false)^[512 * 40] 1 = 21544 := by
  rw [show 512 * 40 = 512 + 512 * 39 from rfl, Function.iterate_add_apply, lfsr0_cum39]
  decide

theorem lfsr0_cum41 : (NoiseChannel.lfsrStep false)^[512 * 41] 1 = 2910 := by
  rw [show 512 * 41 = 512 + 512 * 40 from rfl, Function.iterate_add_apply, lfsr0_cum40]
  decide

theorem lfsr0_cum42 : (NoiseChannel.lfsrStep false)^[512 * 42] 1 = 23132 := by
  rw [show 512 * 42 = 512 + 512 * 41 from rfl, Function.iterate_add_apply, lfsr0_cum41]
  decide

theorem lfsr0_cum43 : (NoiseChannel.lfsrStep false)^[512 * 43] 1 = 28621 := by
  rw [show 512 * 43 = 512 + 512 * 42 from rfl, Function.iterate_add_apply, lfsr0_cum42]
  decide

theorem lfsr0_cum44 : (NoiseChannel.lfsrStep false)^[512 * 44] 1 = 28188 := by
  rw [show 512 * 44 = 512 + 512 * 43 from rfl, Function.iterate_add_apply, lfsr0_cum43]
  decide

theorem lfsr0_cum45 : (NoiseChannel.lfsrStep false)^[512 * 45] 1 = 21225 := by
  rw [show 512 * 45 = 512 + 512 * 44 from rfl, Function.iterate_add_apply, lfsr0_cum44]
  decide

theorem lfsr0_cum46 : (NoiseChannel.lfsrStep false)^[512 * 46] 1 = 31336 := by
  rw [show 512 * 46 = 512 + 512 * 45 from rfl, Function.iterate_add_apply, lfsr0_cum45]
  decide

theorem lfsr0_cum47 : (NoiseChannel.lfsrStep false)^[512 * 47] 1 = 12512 := by
  rw [show 512 * 47 = 512 + 512 * 46 from rfl, Function.iterate_add_apply, lfsr0_cum46]
  decide

theorem lfsr0_cum48 : (NoiseChannel.lfsrStep false)^[512 * 48] 1 = 17416 := by
  rw [show 512 * 48 = 512 + 512 * 47 from rfl, Function.iterate_add_apply, lfsr0_cum47]
  decide

theorem lfsr0_cum49 : (NoiseChannel.lfsrStep false)^[512 * 49] 1 = 5958 := by
  rw [show 512 * 49 = 512 + 512 * 48 from rfl, Function.iterate_add_apply, lfsr0_cum48]
  decide

theorem lfsr0_cum50 : (NoiseChannel.lfsrStep false)^[512 * 50] 1 = 22342 := by
  rw [show 512 * 50 = 512 + 512 * 49 from rfl, Function.iterate_add_apply, lfsr0_cum49]
  decide

theorem lfsr0_cum51 : (NoiseChannel.lfsrStep false)^[512 * 51] 1 = 18182 := by
  rw [show 512 * 51 = 512 + 512 * 50 from rfl, Function.iterate_add_apply, lfsr0_cum50]
  decide

theorem lfsr0_cum52 : (NoiseChannel.lfsrStep false)^[512 * 52] 1 = 29446 := by
  rw [show 512 * 52 = 512 + 512 * 51 from rfl, Function.iterate_add_apply, lfsr0_cum51]
  decide

theorem lfsr0_cum53 : (NoiseChannel.lfsrStep false)^[512 * 53] 1 = 32306 := by
  rw [show 512 * 53 = 512 + 512 * 52 from rfl, Function.iterate_add_apply, lfsr0_cum52]
  decide

theorem lfsr0_cum54 : (NoiseChannel.lfsrStep false)^[512 * 54] 1 = 27250 := by
  rw [show 512 * 54 = 512 + 512 * 53 from rfl, Function.iterate_add_apply, lfsr0_cum53]
  decide

theorem lfsr0_cum55 : (NoiseChannel.lfsrStep false)^[512 * 55] 1 = 24438 := by
  rw [show 512 * 55 = 512 + 512 * 54 from rfl, Function.iterate_add_apply, lfsr0_cum54]
  decide

theorem lfsr0_cum56 : (NoiseChannel.lfsrStep false)^[512 * 56] 1 = 20738 := by
  rw [show 512 * 56 = 512 + 512 * 55 from rfl, Function.iterate_add_apply, lfsr0_cum55]
  decide

theorem lfsr0_cum57 : (NoiseChannel.lfsrStep false)^[512 * 57] 1 = 13713 := by
  rw [show 512 * 57 = 512 + 512 * 56 from rfl, Function.iterate_add_apply, lfsr0_cum56]
  decide

theorem lfsr0_cum58 : (NoiseChannel.lfsrStep false)^[512 * 58] 1 = 465 := by
  rw [show 512 * 58 = 512 + 512 * 57 from rfl, Function.iterate_add_apply, lfsr0_cum57]
  decide

theorem lfsr0_cum59 : (NoiseChannel.lfsrStep false)^[512 * 59] 1 = 15605 := by
  rw [show 512 * 59 = 512 + 512 * 58 from rfl, Function.iterate_add_apply, lfsr0_cum58]
  decide

theorem lfsr0_cum60 : (NoiseChannel.lfsrStep false)^[512 * 60] 1 = 10369 := by
  rw [show 512 * 60 = 512 + 512 * 59 from rfl, Function.iterate_add_apply, lfsr0_cum59]
  decide

theorem lfsr0_cum61 : (NoiseChannel.lfsrStep false)^[512 * 61] 1 = 19080 := by
  rw [show 512 * 61 = 512 + 512 * 60 from rfl, Function.iterate_add_apply, lfsr0_cum60]
  decide

theorem lfsr0_cum62 : (NoiseChannel.lfsrStep false)^[512 * 62] 1 = 29928 := by
  rw [show 512 * 62 = 512 + 512 * 61 from rfl, Function.iterate_add_apply, lfsr0_cum61]
  decide

theorem lfsr0_cum63 : (NoiseChannel.lfsrStep false)^[512 * 63] 1 = 21326 := by
  rw [show 512 * 63 = 512 + 512 * 62 from rfl, Function.iterate_add_apply, lfsr0_cum62]
  decide

theorem lfsr0_full : (NoiseChannel.lfsrStep false)^[32767] 1 = 1 := by
  rw [show 32767 = 511 + 512 * 63 from rfl, Function.iterate_add_apply, lfsr0_cum63]
  decide

theorem lfsr0_217 : (NoiseChannel.lfsrStep false)^[217] 1 ≠ 1 := by decide

theorem lfsr0_1057 : (NoiseChannel.lfsrStep false)^[1057] 1 ≠ 1 := by
  rw [show 1057 = 33 + 512 * 2 from rfl, Function.iterate_add_apply, lfsr0_cum2]
  decide

theorem lfsr0_4681 : (NoiseChannel.lfsrStep false)^[4681] 1 ≠ 1 := by
  rw [show 4681 = 73 + 512 * 9 from rfl, Function.iterate_add_apply, lfsr0_cum9]
  decide

/-- Every proper divisor of 32767 = 7 * 31 * 151 divides one of the three
maximal proper divisors 4681, 1057, 217. -/
theorem dvd32767_proper (p : Nat) (hdvd : p ∣ 32767) (hlt : p < 32767) :
    p ∣ 4681 ∨ p ∣ 1057 ∨ p ∣ 217 := by
  obtain ⟨q, hq⟩ := hdvd
  have hq1 : q ≠ 1 := by rintro rfl; omega
  have hq0 : q ≠ 0 := by rintro rfl; omega
  have hrprime : (q.minFac).Prime := Nat.minFac_prime hq1
  have hrq : q.minFac ∣ q := Nat.minFac_dvd q
  have hr32767 : q.minFac ∣ 7 * 4681 := by
    rw [show (7 * 4681 : Nat) = 32767 from rfl, hq]
    exact Dvd.dvd.mul_left hrq p
  rcases (Nat.Prime.dvd_mul hrprime).mp hr32767 with h7 | h4681
  · left
    have : q.minFac = 7 := (Nat.prime_dvd_prime_iff_eq hrprime (by norm_num)).mp h7
    rw [this] at hrq
    obtain ⟨s, rfl⟩ := hrq
    refine ⟨s, ?_⟩
    have h1 : 7 * 4681 = 7 * (p * s) := by
      rw [show (7 * 4681 : Nat) = 32767 from rfl, hq]; ring
    exact Nat.eq_of_mul_eq_mul_left (by norm_num) h1
  · rw [show (4681 : Nat) = 31 * 151 from rfl] at h4681
    rcases (Nat.Prime.dvd_mul hrprime).mp h4681 with h31 | h151
    · right; left
      have : q.minFac = 31 := (Nat.prime_dvd_prime_iff_eq hrprime (by norm_num)).mp h31
      rw [this] at hrq
      obtain ⟨s, rfl⟩ := hrq
      refine ⟨s, ?_⟩
      have h1 : 31 * 1057 = 31 * (p * s) := by
        rw [show (31 * 1057 : Nat) = 32767 from rfl, hq]; ring
      exact Nat.eq_of_mul_eq_mul_left (by norm_num) h1
    · right; right
      have : q.minFac = 151 := (Nat.prime_dvd_prime_iff_eq hrprime (by norm_num)).mp h151
      rw [this] at hrq
      obtain ⟨s, rfl⟩ := hrq
      refine ⟨s, ?_⟩
      have h1 : 151 * 217 = 151 * (p * s) := by
        rw [show (151 * 217 : Nat) = 32767 from rfl, hq]; ring
      exact Nat.eq_of_mul_eq_mul_left (by norm_num) h1

/-- Claim C6: stepped from the reset value 1, the noise LFSR returns to
its initial state after exactly 32767 steps in mode 0 and after exactly
93 steps in mode 1 (and not at any earlier positive step count). -/
theorem noise_lfsr_periods_c6 :
    (NoiseChannel.lfsrStep false)^[32767] NoiseChannel.resetShiftRegister =
      NoiseChannel.resetShiftRegister ∧
    (∀ k, 0 < k → k < 32767 →
      (NoiseChannel.lfsrStep false)^[k] NoiseChannel.resetShiftRegister ≠
        NoiseChannel.resetShiftRegister) ∧
    (NoiseChannel.lfsrStep true)^[93] NoiseChannel.resetShiftRegister =
      NoiseChannel.resetShiftRegister ∧
    (∀ k, 0 < k → k < 93 →
      (NoiseChannel.lfsrStep true)^[k] NoiseChannel.resetShiftRegister ≠
        NoiseChannel.resetShiftRegister) := by
  refine ⟨lfsr0_full, ?_, by decide, ?_⟩
  · intro k hk0 hklt hcon
    have hperk : Function.IsPeriodicPt (NoiseChannel.lfsrStep false) k 1 := hcon
    have hperN : Function.IsPeriodicPt (NoiseChannel.lfsrStep false) 32767 1 := lfsr0_full
    have hdvdN : Function.minimalPeriod (NoiseChannel.lfsrStep false) 1 ∣ 32767 :=
      hperN.minimalPeriod_dvd
    have hdvdk : Function.minimalPeriod (NoiseChannel.lfsrStep false) 1 ∣ k :=
      hperk.minimalPeriod_dvd
    have hple : Function.minimalPeriod (NoiseChannel.lfsrStep false) 1 ≤ k :=
      Nat.le_of_dvd hk0 hdvdk
    rcases dvd32767_proper _ hdvdN (lt_of_le_of_lt hple hklt) with h | h | h
    · exact lfsr0_4681 (Function.isPeriodicPt_iff_minimalPeriod_dvd.mpr h)
    · exact lfsr0_1057 (Function.isPeriodicPt_iff_minimalPeriod_dvd.mpr h)
    · exact lfsr0_217 (Function.isPeriodicPt_iff_minimalPeriod_dvd.mpr h)
  · have hball : ∀ k, k < 93 → 0 < k →
        (NoiseChannel.lfsrStep true)^[k] 1 ≠ 1 := by decide
    intro k hk0 hklt
    exact hball k hklt hk0

/-- Witness for claim C6 at k = 5 in both modes. -/
theorem noise_lfsr_periods_c6_witness :
    (NoiseChannel.lfsrStep false)^[5] NoiseChannel.resetShiftRegister ≠
      NoiseChannel.resetShiftRegister ∧
    (NoiseChannel.lfsrStep true)^[5] NoiseChannel.resetShiftRegister ≠
      NoiseChannel.resetShiftRegister :=
  ⟨noise_lfsr_periods_c6.2.1 5 (by decide) (by decide),
   noise_lfsr_periods_c6.2.2.2 5 (by decide) (by decide)⟩

/-! ## Claim C5 — frame length

The frame-length facts are proved over the projected advance `advStep`
(scanline-by-scanline, by induction) and transported to the source
embedding `PpuTiming.step` through `toAdv_step`. -/

theorem PpuTiming.nmiChange_adv (s : PpuTiming) :
    PpuTiming.toAdv (PpuTiming.nmiChange s) = PpuTiming.toAdv s ∧
    (PpuTiming.nmiChange s).mask = s.mask ∧
    (PpuTiming.nmiChange s).inWarmup = s.inWarmup := by
  unfold PpuTiming.nmiChange PpuTiming.toAdv
  dsimp only
  split_ifs <;> exact ⟨rfl, rfl, rfl⟩

theorem PpuTiming.stepVblankSet_adv (s : PpuTiming) :
    PpuTiming.toAdv (PpuTiming.stepVblankSet s) = PpuTiming.toAdv s ∧
    (PpuTiming.stepVblankSet s).mask = s.mask := by
  unfold PpuTiming.stepVblankSet
  split_ifs with h
  · exact ⟨(PpuTiming.nmiChange_adv _).1, (PpuTiming.nmiChange_adv _).2.1⟩
  · exact ⟨rfl, rfl⟩

theorem PpuTiming.stepPreRenderClear_adv (s : PpuTiming) :
    PpuTiming.toAdv (PpuTiming.stepPreRenderClear s) = PpuTiming.toAdv s ∧
    (PpuTiming.stepPreRenderClear s).mask = s.mask := by
  unfold PpuTiming.stepPreRenderClear
  dsimp only
  split_ifs with h1 h2
  · exact ⟨(PpuTiming.nmiChange_adv _).1, (PpuTiming.nmiChange_adv _).2.1⟩
  · exact ⟨(PpuTiming.nmiChange_adv _).1, (PpuTiming.nmiChange_adv _).2.1⟩
  · exact ⟨rfl, rfl⟩

theorem PpuTiming.stepAdvance_adv (re : Bool) (s : PpuTiming) :
    PpuTiming.toAdv (PpuTiming.stepAdvance re s) = advStep re (PpuTiming.toAdv s) ∧
    (PpuTiming.stepAdvance re s).mask = s.mask := by
  unfold PpuTiming.stepAdvance advStep PpuTiming.toAdv
  dsimp only
  split_ifs <;> exact ⟨rfl, rfl⟩

theorem PpuTiming.stepNmiDelay_adv (s : PpuTiming) :
    PpuTiming.toAdv (PpuTiming.stepNmiDelay s) = PpuTiming.toAdv s ∧
    (PpuTiming.stepNmiDelay s).mask = s.mask := by
  unfold PpuTiming.stepNmiDelay
  dsimp only
  split_ifs <;> exact ⟨rfl, rfl⟩

theorem PpuTiming.toAdv_step (s : PpuTiming) :
    PpuTiming.toAdv (PpuTiming.step s) =
      advStep (maskRenderingEnabled s.mask) (PpuTiming.toAdv s) := by
  unfold PpuTiming.step
  rw [(PpuTiming.stepNmiDelay_adv _).1, (PpuTiming.stepAdvance_adv _ _).1,
    (PpuTiming.stepPreRenderClear_adv _).1, (PpuTiming.stepVblankSet_adv _).1]
  rfl

theorem PpuTiming.step_mask (s : PpuTiming) : (PpuTiming.step s).mask = s.mask := by
  unfold PpuTiming.step
  rw [(PpuTiming.stepNmiDelay_adv _).2, (PpuTiming.stepAdvance_adv _ _).2,
    (PpuTiming.stepPreRenderClear_adv _).2, (PpuTiming.stepVblankSet_adv _).2]

theorem PpuTiming.step_iterate_adv (n : Nat) :
    ∀ s : PpuTiming,
      PpuTiming.toAdv (PpuTiming.step^[n] s) =
        (advStep (maskRenderingEnabled s.mask))^[n] (PpuTiming.toAdv s) := by
  induction n with
  | zero => intro s; rfl
  | succ n ih =>
    intro s
    rw [Function.iterate_succ_apply, Function.iterate_succ_apply]
    rw [ih (PpuTiming.step s), PpuTiming.step_mask s, PpuTiming.toAdv_step s]

theorem advStep_run (re : Bool) :
    ∀ (k : Nat) (sc c fr : Nat) (od fc : Bool),
      (od && decide (sc = 261) && re) = false → c + k ≤ 340 →
      (advStep re)^[k] ⟨sc, c, fr, od, fc⟩ = ⟨sc, c + k, fr, od, fc⟩ := by
  intro k
  induction k with
  | zero => intro sc c fr od fc _ _; rfl
  | succ k ih =>
    intro sc c fr od fc hshort hc
    rw [Function.iterate_succ_apply]
    have hstep : advStep re ⟨sc, c, fr, od, fc⟩ = ⟨sc, c + 1, fr, od, fc⟩ := by
      unfold advStep
      dsimp only
      have hlen : (if (od && decide (sc = 261) && re) = true then (340 : Nat) else 341) = 341 := by
        rw [hshort]; rfl
      rw [hlen, if_neg (by omega : ¬(c + 1 ≥ 341))]
    rw [hstep, ih sc (c + 1) fr od fc hshort (by omega)]
    congr 1
    omega

theorem advStep_run_short (k c fr : Nat) (fc : Bool)
    (hc : c + k ≤ 339) :
    (advStep true)^[k] ⟨261, c, fr, true, fc⟩ = ⟨261, c + k, fr, true, fc⟩ := by
  induction k generalizing c with
  | zero => rfl
  | succ k ih =>
    rw [Function.iterate_succ_apply]
    have hstep : advStep true ⟨261, c, fr, true, fc⟩ = ⟨261, c + 1, fr, true, fc⟩ := by
      unfold advStep
      dsimp only
      have hlen : (if (true && decide ((261 : Nat) = 261) && true) = true
          then (340 : Nat) else 341) = 340 := by rfl
      rw [hlen, if_neg (by omega : ¬(c + 1 ≥ 340))]
    rw [hstep, ih (c + 1) (by omega)]
    congr 1
    omega

theorem advStep_line (re : Bool) (sc fr : Nat) (od fc : Bool) (hsc : sc < 261) :
    (advStep re)^[341] ⟨sc, 0, fr, od, fc⟩ = ⟨sc + 1, 0, fr, od, fc⟩ := by
  have hne : sc ≠ 261 := by omega
  have hshort : (od && decide (sc = 261) && re) = false := by simp [hne]
  rw [show (341 : Nat) = 340 + 1 from rfl, Function.iterate_succ_apply',
    advStep_run re 340 sc 0 fr od fc hshort (by omega)]
  unfold advStep
  dsimp only
  have hlen : (if (od && decide (sc = 261) && re) = true then (340 : Nat) else 341) = 341 := by
    rw [hshort]; rfl
  rw [hlen, if_pos (by omega : 0 + 340 + 1 ≥ 341)]
  rw [if_neg (by omega : ¬(sc + 1 > 261))]

theorem advStep_lines (re : Bool) :
    ∀ (j sc fr : Nat) (od fc : Bool), sc + j ≤ 261 →
      (advStep re)^[341 * j] ⟨sc, 0, fr, od, fc⟩ = ⟨sc + j, 0, fr, od, fc⟩ := by
  intro j
  induction j with
  | zero => intro sc fr od fc _; rfl
  | succ j ih =>
    intro sc fr od fc hj
    rw [show 341 * (j + 1) = 341 * j + 341 by ring, Function.iterate_add_apply,
      advStep_line re sc fr od fc (by omega), ih (sc + 1) fr od fc (by omega)]
    congr 1
    omega

theorem advStep_last_line (re : Bool) (fr : Nat) (od fc : Bool)
    (hfalse : (od && re) = false) :
    (advStep re)^[341] ⟨261, 0, fr, od, fc⟩ = ⟨0, 0, fr + 1, !od, true⟩ := by
  have hshort : (od && decide ((261 : Nat) = 261) && re) = false := by
    simpa using hfalse
  rw [show (341 : Nat) = 340 + 1 from rfl, Function.iterate_succ_apply',
    advStep_run re 340 261 0 fr od fc hshort (by omega)]
  unfold advStep
  dsimp only
  have hlen : (if (od && decide ((261 : Nat) = 261) && re) = true then (340 : Nat) else 341) = 341 := by
    rw [show (od && decide ((261 : Nat) = 261) && re) = false from hshort]; rfl
  rw [hlen, if_pos (by omega : 0 + 340 + 1 ≥ 341)]
  rw [if_pos (by omega : 261 + 1 > 261)]

theorem advStep_last_line_short (fr : Nat) (fc : Bool) :
    (advStep true)^[340] ⟨261, 0, fr, true, fc⟩ = ⟨0, 0, fr + 1, false, true⟩ := by
  rw [show (340 : Nat) = 339 + 1 from rfl, Function.iterate_succ_apply',
    advStep_run_short 339 0 fr fc (by omega)]
  unfold advStep
  dsimp only
  have hlen : (if (true && decide ((261 : Nat) = 261) && true) = true
      then (340 : Nat) else 341) = 340 := by rfl
  rw [hlen, if_pos (by omega : 0 + 339 + 1 ≥ 340)]
  rw [if_pos (by omega : 261 + 1 > 261)]
  rfl

theorem advStep_frame_even (re : Bool) (fr : Nat) (od fc : Bool)
    (hfalse : (od && re) = false) :
    (advStep re)^[89342] ⟨0, 0, fr, od, fc⟩ = ⟨0, 0, fr + 1, !od, true⟩ := by
  rw [show (89342 : Nat) = 341 + 341 * 261 from rfl, Function.iterate_add_apply,
    advStep_lines re 261 0 fr od fc (by omega)]
  exact advStep_last_line re fr od fc hfalse

theorem advStep_frame_odd (fr : Nat) (fc : Bool) :
    (advStep true)^[89341] ⟨0, 0, fr, true, fc⟩ = ⟨0, 0, fr + 1, false, true⟩ := by
  rw [show (89341 : Nat) = 340 + 341 * 261 from rfl, Function.iterate_add_apply,
    advStep_lines true 261 0 fr true fc (by omega)]
  exact advStep_last_line_short fr fc

theorem advStep_almost_even (re : Bool) (fr : Nat) (od fc : Bool)
    (hfalse : (od && re) = false) :
    (advStep re)^[89341] ⟨0, 0, fr, od, fc⟩ = ⟨261, 340, fr, od, fc⟩ := by
  have hshort : (od && decide ((261 : Nat) = 261) && re) = false := by
    simpa using hfalse
  rw [show (89341 : Nat) = 340 + 341 * 261 from rfl, Function.iterate_add_apply,
    advStep_lines re 261 0 fr od fc (by omega),
    advStep_run re 340 261 0 fr od fc hshort (by omega)]

theorem advStep_almost_odd (fr : Nat) (fc : Bool) :
    (advStep true)^[89340] ⟨0, 0, fr, true, fc⟩ = ⟨261, 339, fr, true, fc⟩ := by
  rw [show (89340 : Nat) = 339 + 341 * 261 from rfl, Function.iterate_add_apply,
    advStep_lines true 261 0 fr true fc (by omega),
    advStep_run_short 339 0 fr fc (by omega)]

theorem advStep_fc_mono (re : Bool) (a : Adv) (h : a.frameComplete = true) :
    (advStep re a).frameComplete = true := by
  unfold advStep
  dsimp only
  split_ifs <;> first
  | rfl
  | exact h

theorem advStep_fc_mono_iter (re : Bool) (n : Nat) :
    ∀ a : Adv, a.frameComplete = true → ((advStep re)^[n] a).frameComplete = true := by
  induction n with
  | zero => intro a h; exact h
  | succ n ih =>
    intro a h
    rw [Function.iterate_succ_apply]
    exact ih _ (advStep_fc_mono re a h)

theorem advStep_min_even (re : Bool) (fr : Nat) (od : Bool)
    (hfalse : (od && re) = false) :
    ∀ k, k < 89342 → ((advStep re)^[k] ⟨0, 0, fr, od, false⟩).frameComplete = false := by
  intro k hk
  by_contra h
  have ht : ((advStep re)^[k] (⟨0, 0, fr, od, false⟩ : Adv)).frameComplete = true := by
    revert h
    cases ((advStep re)^[k] (⟨0, 0, fr, od, false⟩ : Adv)).frameComplete <;> simp
  have h89341 : ((advStep re)^[89341] (⟨0, 0, fr, od, false⟩ : Adv)).frameComplete = true := by
    rw [show (89341 : Nat) = (89341 - k) + k by omega, Function.iterate_add_apply]
    exact advStep_fc_mono_iter re (89341 - k) _ ht
  rw [advStep_almost_even re fr od false hfalse] at h89341
  exact Bool.noConfusion h89341

theorem advStep_min_odd (fr : Nat) :
    ∀ k, k < 89341 → ((advStep true)^[k] ⟨0, 0, fr, true, false⟩).frameComplete = false := by
  intro k hk
  by_contra h
  have ht : ((advStep true)^[k] (⟨0, 0, fr, true, false⟩ : Adv)).frameComplete = true := by
    revert h
    cases ((advStep true)^[k] (⟨0, 0, fr, true, false⟩ : Adv)).frameComplete <;> simp
  have h89340 : ((advStep true)^[89340] (⟨0, 0, fr, true, false⟩ : Adv)).frameComplete = true := by
    rw [show (89340 : Nat) = (89340 - k) + k by omega, Function.iterate_add_apply]
    exact advStep_fc_mono_iter true (89340 - k) _ ht
  rw [advStep_almost_odd fr false] at h89340
  exact Bool.noConfusion h89340

theorem PpuTiming.toAdv_scanline (t : PpuTiming) :
    (PpuTiming.toAdv t).scanline = t.scanline := rfl

theorem PpuTiming.toAdv_cycle (t : PpuTiming) :
    (PpuTiming.toAdv t).cycle = t.cycle := rfl

theorem PpuTiming.toAdv_frame (t : PpuTiming) :
    (PpuTiming.toAdv t).frame = t.frame := rfl

theorem PpuTiming.toAdv_oddFrame (t : PpuTiming) :
    (PpuTiming.toAdv t).oddFrame = t.oddFrame := rfl

theorem PpuTiming.toAdv_frameComplete (t : PpuTiming) :
    (PpuTiming.toAdv t).frameComplete = t.frameComplete := rfl

/-- Claim C5: starting a frame at scanline 0, cycle 0 with the
frame-complete flag clear, iterating `PpuTiming.step` first completes the
frame after exactly 89342 dots when the odd-frame flag is clear (an even
frame), and after exactly 89341 dots when the odd-frame flag is set and
rendering is enabled; in both cases the state returns to scanline 0,
cycle 0 with the frame counter incremented and the odd-frame flag
toggled, and the frame-complete flag is still clear at every earlier dot
count. -/
theorem ppu_frame_length_c5 (s : PpuTiming)
    (h0 : s.scanline = 0) (hc : s.cycle = 0) (hfc : s.frameComplete = false) :
    (s.oddFrame = false →
      (PpuTiming.step^[89342] s).scanline = 0 ∧
      (PpuTiming.step^[89342] s).cycle = 0 ∧
      (PpuTiming.step^[89342] s).frame = s.frame + 1 ∧
      (PpuTiming.step^[89342] s).oddFrame = !s.oddFrame ∧
      (PpuTiming.step^[89342] s).frameComplete = true ∧
      ∀ k, k < 89342 → (PpuTiming.step^[k] s).frameComplete = false) ∧
    (s.oddFrame = true → maskRenderingEnabled s.mask = true →
      (PpuTiming.step^[89341] s).scanline = 0 ∧
      (PpuTiming.step^[89341] s).cycle = 0 ∧
      (PpuTiming.step^[89341] s).frame = s.frame + 1 ∧
      (PpuTiming.step^[89341] s).oddFrame = !s.oddFrame ∧
      (PpuTiming.step^[89341] s).frameComplete = true ∧
      ∀ k, k < 89341 → (PpuTiming.step^[k] s).frameComplete = false) := by
  have hadv : PpuTiming.toAdv s = ⟨0, 0, s.frame, s.oddFrame, false⟩ := by
    unfold PpuTiming.toAdv
    rw [h0, hc, hfc]
  constructor
  · intro hod
    have hfalse : (s.oddFrame && maskRenderingEnabled s.mask) = false := by
      rw [hod]; rfl
    have h1 : PpuTiming.toAdv (PpuTiming.step^[89342] s) =
        ⟨0, 0, s.frame + 1, !s.oddFrame, true⟩ := by
      rw [PpuTiming.step_iterate_adv, hadv,
        advStep_frame_even (maskRenderingEnabled s.mask) s.frame s.oddFrame false hfalse]
    refine ⟨?_, ?_, ?_, ?_, ?_, ?_⟩
    · rw [← PpuTiming.toAdv_scanline, h1]
    · rw [← PpuTiming.toAdv_cycle, h1]
    · rw [← PpuTiming.toAdv_frame, h1]
    · rw [← PpuTiming.toAdv_oddFrame, h1]
    · rw [← PpuTiming.toAdv_frameComplete, h1]
    · intro k hk
      have h2 : PpuTiming.toAdv (PpuTiming.step^[k] s) =
          (advStep (maskRenderingEnabled s.mask))^[k] ⟨0, 0, s.frame, s.oddFrame, false⟩ := by
        rw [PpuTiming.step_iterate_adv, hadv]
      rw [← PpuTiming.toAdv_frameComplete, h2]
      exact advStep_min_even (maskRenderingEnabled s.mask) s.frame s.oddFrame hfalse k hk
  · intro hod hre
    have h1 : PpuTiming.toAdv (PpuTiming.step^[89341] s) =
        ⟨0, 0, s.frame + 1, false, true⟩ := by
      rw [PpuTiming.step_iterate_adv, hadv, hod, hre, advStep_frame_odd s.frame false]
    refine ⟨?_, ?_, ?_, ?_, ?_, ?_⟩
    · rw [← PpuTiming.toAdv_scanline, h1]
    · rw [← PpuTiming.toAdv_cycle, h1]
    · rw [← PpuTiming.toAdv_frame, h1]
    · rw [← PpuTiming.toAdv_oddFrame, h1, hod]
      rfl
    · rw [← PpuTiming.toAdv_frameComplete, h1]
    · intro k hk
      have h2 : PpuTiming.toAdv (PpuTiming.step^[k] s) =
          (advStep true)^[k] ⟨0, 0, s.frame, true, false⟩ := by
        rw [PpuTiming.step_iterate_adv, hadv, hod, hre]
      rw [← PpuTiming.toAdv_frameComplete, h2]
      exact advStep_min_odd s.frame k hk

/-- Witness for claim C5 at the power-on state `c5init`. -/
theorem ppu_frame_length_c5_witness :
    c5init.scanline = 0 ∧ c5init.cycle = 0 ∧ c5init.frameComplete = false ∧
    ((PpuTiming.step^[89342] c5init).frameComplete = true ∧
     (PpuTiming.step^[89342] c5init).frame = c5init.frame + 1 ∧
     (PpuTiming.step^[89342] c5init).oddFrame = !c5init.oddFrame ∧
     (PpuTiming.step^[89341] c5init).frameComplete = false) := by
  refine ⟨rfl, rfl, rfl, ?_⟩
  have h := (ppu_frame_length_c5 c5init rfl rfl rfl).1 rfl
  exact ⟨h.2.2.2.2.1, h.2.2.1, h.2.2.2.1, h.2.2.2.2.2 89341 (by omega)⟩

/-! ## Claim C3 — buffered VRAM reads through 2006/2007 writes -/

theorem ppu_hi_byte_mask (t x : Nat) (hx : x < 64) :
    ((t &&& 0xFF) ||| (x <<< 8)) &&& 0xFF00 = x <<< 8 := by
  apply Nat.eq_of_testBit_eq
  intro i
  rcases Nat.lt_or_ge i 16 with h16 | h16
  · rcases Nat.lt_or_ge i 8 with h8 | h8
    · rw [Nat.testBit_and, Nat.testBit_or, Nat.testBit_shiftLeft,
        decide_eq_false (by omega : ¬ 8 ≤ i)]
      have hff : Nat.testBit 0xFF00 i = false := by interval_cases i <;> decide
      rw [hff]
      simp
    · rw [Nat.testBit_and, Nat.testBit_or]
      have hff : Nat.testBit 0xFF00 i = true := by interval_cases i <;> decide
      have htl : Nat.testBit (t &&& 0xFF) i = false := by
        apply Nat.testBit_lt_two_pow
        exact lt_of_lt_of_le (Nat.and_lt_two_pow t (by norm_num : (0xFF : Nat) < 2 ^ 8))
          (Nat.pow_le_pow_right (by norm_num) h8)
      rw [hff, htl]
      simp
  · rw [Nat.testBit_and]
    have hff : Nat.testBit 0xFF00 i = false := by
      apply Nat.testBit_lt_two_pow
      exact lt_of_lt_of_le (by norm_num : (0xFF00 : Nat) < 2 ^ 16)
        (Nat.pow_le_pow_right (by norm_num) h16)
    have hsh : Nat.testBit (x <<< 8) i = false := by
      apply Nat.testBit_lt_two_pow
      rw [Nat.shiftLeft_eq, show (2 : Nat) ^ 8 = 256 from rfl]
      have hxx : x * 256 < 16384 := by omega
      exact lt_of_lt_of_le (by simpa using hxx)
        (Nat.pow_le_pow_right (by norm_num) (by omega : 14 ≤ i))
    rw [hff, hsh]
    simp

theorem ppu_addr_lt (x lo : Nat) (hx : x < 64) (hlo : lo < 256) :
    (x <<< 8) ||| lo < 0x4000 := by
  have h1 : x <<< 8 < 2 ^ 14 := by
    rw [Nat.shiftLeft_eq, show (2 : Nat) ^ 8 = 256 from rfl,
      show (2 : Nat) ^ 14 = 16384 from rfl]
    omega
  have h2 : lo < 2 ^ 14 := by
    rw [show (2 : Nat) ^ 14 = 16384 from rfl]
    omega
  have h3 := Nat.or_lt_two_pow h1 h2
  rw [show (2 : Nat) ^ 14 = 16384 from rfl] at h3
  exact h3

theorem PPU.readVRAM_congr (hk : MapperHooks) (s1 s2 : PpuRegs) (addr : Nat)
    (hv : s1.vramMem = s2.vramMem) (hp : s1.palette = s2.palette)
    (hm : s1.mirroring = s2.mirroring) :
    PPU.readVRAM hk s1 addr = PPU.readVRAM hk s2 addr := by
  unfold PPU.readVRAM
  rw [hv, hp, hm]

theorem PPU.write2006_first (hk : MapperHooks) (s : PpuRegs) (hi : Nat)
    (hwarm : s.inWarmup = false) (hw0 : s.w = 0) :
    PPU.writeRegister hk s 0x2006 hi =
      { s with ioBus := hi,
               t := (s.t &&& 0x00FF) ||| ((hi &&& 0x3F) <<< 8), w := 1 } := by
  simp [PPU.writeRegister, hwarm, hw0, show (8198 &&& 7 : Nat) = 6 by decide]

theorem PPU.write2006_second (hk : MapperHooks) (s : PpuRegs) (lo : Nat)
    (hwarm : s.inWarmup = false) (hw1 : s.w = 1) :
    PPU.writeRegister hk s 0x2006 lo =
      { s with ioBus := lo, t := (s.t &&& 0xFF00) ||| lo,
               v := (s.t &&& 0xFF00) ||| lo, w := 0 } := by
  simp [PPU.writeRegister, hwarm, hw1, show (8198 &&& 7 : Nat) = 6 by decide]

theorem PPU.read2007_buffered (hk : MapperHooks) (s : PpuRegs)
    (hv : s.v &&& 0x3FFF < 0x3F00) :
    (PPU.readRegister hk s 0x2007).1 = s.bufferedRead ∧
    (PPU.readRegister hk s 0x2007).2.bufferedRead =
      PPU.readVRAM hk s (s.v &&& 0x3FFF) := by
  simp [PPU.readRegister, not_le.mpr hv, show (8199 &&& 7 : Nat) = 7 by decide]

theorem PPU.read2007_palette (hk : MapperHooks) (s : PpuRegs)
    (hv : 0x3F00 ≤ s.v &&& 0x3FFF) :
    (PPU.readRegister hk s 0x2007).1 = PPU.readPalette s.palette (s.v &&& 0x3FFF) ∧
    (PPU.readRegister hk s 0x2007).2.bufferedRead =
      s.vramMem (PPU.mirrorAddress s.mirroring (s.v &&& 0x3FFF)) := by
  simp [PPU.readRegister, hv, show (8199 &&& 7 : Nat) = 7 by decide]

/-- Claim C3: with the write toggle clear, the warm-up over and the data
byte in bus range, a two-write pair to register 2006 followed by a read
of register 2007 returns the previously buffered byte and refills the
buffer from the newly set address; except when the new address lies in
palette space (at or above 0x3F00), in which case the palette byte is
returned immediately and the buffer is refilled from the nametable byte
mirrored under the palette address.  The rendering-disabled hypothesis
mirrors the specification; the register path does not read the mask. -/
theorem ppu_buffered_read_c3 (hk : MapperHooks) (s : PpuRegs) (hi lo : Nat)
    (hw0 : s.w = 0) (hwarm : s.inWarmup = false) (hlo : lo < 256)
    (_hrd : s.mask &&& 0x18 = 0) :
    (((hi &&& 0x3F) <<< 8) ||| lo < 0x3F00 →
      (PPU.readRegister hk (PPU.writeRegister hk (PPU.writeRegister hk s 0x2006 hi)
          0x2006 lo) 0x2007).1 = s.bufferedRead ∧
      (PPU.readRegister hk (PPU.writeRegister hk (PPU.writeRegister hk s 0x2006 hi)
          0x2006 lo) 0x2007).2.bufferedRead =
        PPU.readVRAM hk s (((hi &&& 0x3F) <<< 8) ||| lo)) ∧
    (0x3F00 ≤ ((hi &&& 0x3F) <<< 8) ||| lo →
      (PPU.readRegister hk (PPU.writeRegister hk (PPU.writeRegister hk s 0x2006 hi)
          0x2006 lo) 0x2007).1 =
        PPU.readPalette s.palette (((hi &&& 0x3F) <<< 8) ||| lo) ∧
      (PPU.readRegister hk (PPU.writeRegister hk (PPU.writeRegister hk s 0x2006 hi)
          0x2006 lo) 0x2007).2.bufferedRead =
        s.vramMem (PPU.mirrorAddress s.mirroring (((hi &&& 0x3F) <<< 8) ||| lo))) := by
  have hx : hi &&& 0x3F < 64 := by
    simpa using Nat.and_lt_two_pow hi (n := 6) (by norm_num)
  have hs2 : PPU.writeRegister hk (PPU.writeRegister hk s 0x2006 hi) 0x2006 lo =
      { s with ioBus := lo, t := ((hi &&& 0x3F) <<< 8) ||| lo,
               v := ((hi &&& 0x3F) <<< 8) ||| lo, w := 0 } := by
    rw [PPU.write2006_first hk s hi hwarm hw0]
    rw [PPU.write2006_second hk
      { s with ioBus := hi, t := (s.t &&& 0x00FF) ||| ((hi &&& 0x3F) <<< 8), w := 1 }
      lo hwarm rfl]
    dsimp only
    rw [ppu_hi_byte_mask s.t (hi &&& 0x3F) hx]
  have hvlt : ((hi &&& 0x3F) <<< 8) ||| lo < 0x4000 := ppu_addr_lt _ lo hx hlo
  have hmask : (((hi &&& 0x3F) <<< 8) ||| lo) &&& 0x3FFF =
      ((hi &&& 0x3F) <<< 8) ||| lo := by
    rw [(nat_and_mask_eq_mod _).2.2.2.1]
    exact Nat.mod_eq_of_lt hvlt
  constructor
  · intro ha
    have hcond : (PPU.writeRegister hk (PPU.writeRegister hk s 0x2006 hi)
        0x2006 lo).v &&& 0x3FFF < 0x3F00 := by
      rw [hs2]
      dsimp only
      rw [hmask]
      exact ha
    obtain ⟨e1, e2⟩ := PPU.read2007_buffered hk _ hcond
    refine ⟨?_, ?_⟩
    · rw [e1, hs2]
    · rw [e2, hs2]
      dsimp only
      rw [hmask]
      exact PPU.readVRAM_congr hk _ s _ rfl rfl rfl
  · intro ha
    have hcond : 0x3F00 ≤ (PPU.writeRegister hk (PPU.writeRegister hk s 0x2006 hi)
        0x2006 lo).v &&& 0x3FFF := by
      rw [hs2]
      dsimp only
      rw [hmask]
      exact ha
    obtain ⟨e1, e2⟩ := PPU.read2007_palette hk _ hcond
    refine ⟨?_, ?_⟩
    · rw [e1, hs2]
      dsimp only
      rw [hmask]
    · rw [e2, hs2]
      dsimp only
      rw [hmask]

/-- Witness for claim C3 at the concrete state `c3regs`: address high
byte 0x20 and low byte 0 select nametable address 0x2000 (the buffered
branch). -/
theorem ppu_buffered_read_c3_witness :
    c3regs.w = 0 ∧ c3regs.inWarmup = false ∧ (0 : Nat) < 256 ∧
    c3regs.mask &&& 0x18 = 0 ∧ ((0x20 &&& 0x3F) <<< 8) ||| 0 < 0x3F00 ∧
    ((PPU.readRegister c3hooks (PPU.writeRegister c3hooks (PPU.writeRegister c3hooks
        c3regs 0x2006 0x20) 0x2006 0) 0x2007).1 = c3regs.bufferedRead ∧
     (PPU.readRegister c3hooks (PPU.writeRegister c3hooks (PPU.writeRegister c3hooks
        c3regs 0x2006 0x20) 0x2006 0) 0x2007).2.bufferedRead =
       PPU.readVRAM c3hooks c3regs (((0x20 &&& 0x3F) <<< 8) ||| 0)) :=
  ⟨rfl, rfl, by decide, by decide, by decide,
   (ppu_buffered_read_c3 c3hooks c3regs 0x20 0 rfl rfl (by decide) (by decide)).1
     (by decide)⟩

/-! ## Claim C7 — STATUS read at scanline 241, dot 1

`PpuTiming.step` sets VBlank when it processes a state already showing
scanline 241, cycle 1, so a CPU read of STATUS that observes that dot
runs the race path of `readRegister` case 2 before the VBlank-start
block. -/

/-- Claim C7 (divergence): at scanline 241, dot 1 with NMI output on, the
STATUS read returns the VBlank bit clear and drops the internal latch,
but the very next `step` raises the latch again and schedules the NMI,
which becomes a CPU-visible request three dots later — the claimed
suppression of the NMI for that frame does not hold in the code. -/
theorem ppu_status_race_c7 :
    ((PpuTiming.readStatus
        { status := 0, ioBus := 0, w := 0, mask := 0, scanline := 241, cycle := 1,
          frame := 0, oddFrame := false, frameComplete := false, inWarmup := false,
          nmiOccurred := false, nmiOutput := true, nmiPrevious := false,
          nmiDelay := 0, nmiRequested := false }).1 >>> 7) &&& 1 = 0 ∧
    (PpuTiming.readStatus
        { status := 0, ioBus := 0, w := 0, mask := 0, scanline := 241, cycle := 1,
          frame := 0, oddFrame := false, frameComplete := false, inWarmup := false,
          nmiOccurred := false, nmiOutput := true, nmiPrevious := false,
          nmiDelay := 0, nmiRequested := false }).2.nmiOccurred = false ∧
    (PpuTiming.step^[3] (PpuTiming.readStatus
        { status := 0, ioBus := 0, w := 0, mask := 0, scanline := 241, cycle := 1,
          frame := 0, oddFrame := false, frameComplete := false, inWarmup := false,
          nmiOccurred := false, nmiOutput := true, nmiPrevious := false,
          nmiDelay := 0, nmiRequested := false }).2).nmiRequested = true := by
  refine ⟨by decide, by decide, by decide⟩
